import Mathlib

set_option maxRecDepth 40000

/-!
Verification of the Simple Socket Protocol (SSP) core: a shallow embedding of
the framing codec, the byte-at-a-time packet parser, the receive loop with its
header-checksum resynchronization, the per-port send queue and the reliability
engine, translated from `src/arduino/ssp.c` and `src/example/arduino/ssp_com.c`.
Machine integers are modelled as `Nat` with explicit reduction modulo 2^8,
2^16 or 2^32 exactly where the C types wrap.
-/

/-! ## Compile-time configuration (ssp_opt.h) -/

def SSP_MAX_PACKET_SIZE : Nat := 64

def SSP_MAX_RETRIES : Nat := 4

def SSP_MAX_MESSAGES : Nat := 5

def SSP_ACK_TIMEOUT : Nat := 200

/-- `SSP_SOCKET_MAX` from the `SspSocketId` enum (three socket ids 0,1,2). -/
def SSP_SOCKET_MAX : Nat := 3

/-- `SSP_INVALID_PORT = 0` from the `SspPortId` enum. -/
def SSP_INVALID_PORT : Nat := 0

/-- `SSP_MAX_BODY_SIZE = SSP_MAX_PACKET_SIZE - sizeof(SspPacketHeader) - sizeof(UINT16)`
    = 64 - 8 - 2 = 54 (ssp_common_p.h). -/
def SSP_MAX_BODY_SIZE : Nat := SSP_MAX_PACKET_SIZE - 8 - 2

/-- First packet header synchronization byte (ssp_com.c `SIG_1`). -/
def SIG_1 : Nat := 0xBE

/-- Second packet header synchronization byte (ssp_com.c `SIG_2`). -/
def SIG_2 : Nat := 0xEF

/-- Packet type `MSG_TYPE_DATA` (first member of `SspMsgType`, value 0). -/
def MSG_TYPE_DATA : Nat := 0

/-- Packet type `MSG_TYPE_ACK` (value 1). -/
def MSG_TYPE_ACK : Nat := 1

/-- Packet type `MSG_TYPE_NAK` (value 2). -/
def MSG_TYPE_NAK : Nat := 2

/-! ## Error codes (ssp_common.h `SspErr`) -/

inductive SspErr where
  | SSP_SUCCESS
  | SSP_BAD_SIGNATURE
  | SSP_PARTIAL_PACKET
  | SSP_PARTIAL_PACKET_HEADER_VALID
  | SSP_PORT_OPEN_FAILED
  | SSP_SOCKET_NOT_OPEN
  | SSP_PORT_NOT_OPEN
  | SSP_BAD_SOCKET_ID
  | SSP_SOCKET_ALREADY_OPEN
  | SSP_PACKET_TOO_LARGE
  | SSP_DATA_SIZE_TOO_LARGE
  | SSP_PARSE_ERROR
  | SSP_CORRUPTED_PACKET
  | SSP_BAD_HEADER_CHECKSUM
  | SSP_SEND_RETRIES_FAILED
  | SSP_QUEUE_FULL
  | SSP_OUT_OF_MEMORY
  | SSP_BAD_ARGUMENT
  | SSP_SEND_FAILURE
  | SSP_NOT_INITIALIZED
  | SSP_DUPLICATE_LISTENER
  | SSP_SOFTWARE_FAULT
deriving DecidableEq

export SspErr (SSP_SUCCESS SSP_BAD_SIGNATURE SSP_PARTIAL_PACKET
  SSP_PARTIAL_PACKET_HEADER_VALID SSP_PORT_OPEN_FAILED SSP_SOCKET_NOT_OPEN
  SSP_PORT_NOT_OPEN SSP_BAD_SOCKET_ID SSP_SOCKET_ALREADY_OPEN
  SSP_PACKET_TOO_LARGE SSP_DATA_SIZE_TOO_LARGE SSP_PARSE_ERROR
  SSP_CORRUPTED_PACKET SSP_BAD_HEADER_CHECKSUM SSP_SEND_RETRIES_FAILED
  SSP_QUEUE_FULL SSP_OUT_OF_MEMORY SSP_BAD_ARGUMENT SSP_SEND_FAILURE
  SSP_NOT_INITIALIZED SSP_DUPLICATE_LISTENER SSP_SOFTWARE_FAULT)

/-- Direction tag `SspDataType` (ssp_common.h): receive = 0, send = 1. -/
inductive SspDataType where
  | SSP_RECEIVE
  | SSP_SEND
deriving DecidableEq

export SspDataType (SSP_RECEIVE SSP_SEND)

/-! ## Packet header and in-memory data (ssp_common_p.h) -/

/-- `SspPacketHeader` without the two constant signature bytes, which are the
    fixed values `SIG_1 SIG_2` both on send and at a successful parse. -/
structure SspPacketHeader where
  destId : Nat
  srcId : Nat
  type : Nat
  bodySize : Nat
  transId : Nat
  checksum : Nat
deriving DecidableEq

/-- The first seven on-wire header bytes, in struct layout order
    (`sig[0] sig[1] destId srcId type bodySize transId`): the range the
    header checksum is computed over. -/
def headerFirst7 (h : SspPacketHeader) : List Nat :=
  [SIG_1, SIG_2, h.destId, h.srcId, h.type, h.bodySize, h.transId]

/-- All eight on-wire header bytes (`headerFirst7` plus the checksum byte):
    the header part of the CRC-16 range. -/
def headerBytes8 (h : SspPacketHeader) : List Nat :=
  headerFirst7 h ++ [h.checksum]

/-- `SspData` (ssp_common_p.h): the in-memory packet with its error code,
    direction tag, body and the CRC slot `*crc` at the end of the body. -/
structure SspData where
  err : SspErr
  type : SspDataType
  hdr : SspPacketHeader
  body : List Nat
  crc : Nat
deriving DecidableEq

/-! ## Codec: header checksum and CRC-16 (ssp_com.c, ssp_crc) -/

/-- `Checksum` (ssp_com.c lines 83-89): 8-bit wrapping sum of `data`. The C
    accumulator is a `UINT8`, so every addition reduces modulo 256. -/
def Checksum (data : List Nat) : Nat :=
  data.foldl (fun sum b => (sum + b) % 256) 0

/-- Modelled from the spec: the repository's `Crc16CalcBlock` implementation
    (`ssp_crc.h` / `ssp_crc.c`) is not among the provided source files; the
    spec fixes the algorithm as CRC-16/IBM-style — polynomial 0xA001
    (reflected), initial value 0xFFFF, no final XOR. This is one shift round
    of the reflected bytewise algorithm. -/
def crcRound (c : Nat) : Nat :=
  if c % 2 = 1 then (c / 2) ^^^ 0xA001 else c / 2

/-- Modelled from the spec: one input byte of the reflected CRC-16 —
    XOR the byte into the low bits, then eight shift rounds. -/
def crcByte (c b : Nat) : Nat :=
  crcRound^[8] (c ^^^ b)

/-- Modelled from the spec: `Crc16CalcBlock(data, size, seed)` over a byte
    list with the given seed (the code always passes 0xFFFF). -/
def Crc16CalcBlock (data : List Nat) (seed : Nat) : Nat :=
  data.foldl crcByte seed

/-- The on-wire bytes that `SSPCOM_Send` (ssp_com.c lines 568-617) hands to
    `SSPHAL_PortSend`: it fills the signature bytes, the header checksum over
    the first seven header bytes, then the CRC-16 over header and body, stored
    little-endian after the body. `bodySize` is the body length (the caller
    `SSP_SendMultiple` fills `header.bodySize` with the allocated body size). -/
def SSPCOM_SendBytes (destId srcId mtype transId : Nat) (body : List Nat) : List Nat :=
  let cks := Checksum [SIG_1, SIG_2, destId, srcId, mtype, body.length, transId]
  let hdr8 := [SIG_1, SIG_2, destId, srcId, mtype, body.length, transId, cks]
  let crc := Crc16CalcBlock (hdr8 ++ body) 0xFFFF
  hdr8 ++ body ++ [crc % 256, crc / 256]

/-! ## Parser state machine (ssp_com.c `Parse`, lines 177-356) -/

inductive ParseState where
  | PS_SIGNATURE_1
  | PS_SIGNATURE_2
  | PS_DESTINATION
  | PS_SOURCE
  | PS_TYPE
  | PS_BODY_SIZE
  | PS_TRANSACTION
  | PS_CHECKSUM
  | PS_BODY
  | PS_FOOTER_1
  | PS_FOOTER_2
deriving DecidableEq

export ParseState (PS_SIGNATURE_1 PS_SIGNATURE_2 PS_DESTINATION PS_SOURCE
  PS_TYPE PS_BODY_SIZE PS_TRANSACTION PS_CHECKSUM PS_BODY PS_FOOTER_1
  PS_FOOTER_2)

/-- The parser's mutable context: `self.parseState`, the fields of
    `self.sspDataRecv->packet.header`, the body bytes written so far
    (`packet.body[0..self.parseBytes)`), `self.currentFooter`,
    `self.sspDataRecv->err` and the CRC slot `*self.sspDataRecv->crc`. -/
structure ParseCtx where
  parseState : ParseState
  hdr : SspPacketHeader
  bodyAcc : List Nat
  currentFooter : Nat
  err : SspErr
  crcStored : Nat
deriving DecidableEq

/-- `ParseReset` (ssp_com.c lines 166-170): back to `PS_SIGNATURE_1` with
    `parseBytes = 0` (the body accumulator restarts from index 0). -/
def ParseReset (ctx : ParseCtx) : ParseCtx :=
  { ctx with parseState := PS_SIGNATURE_1, bodyAcc := [] }

/-- A parse-complete outcome: a snapshot of `self.sspDataRecv` as the caller
    of `Parse` sees it when `parseComplete` is returned true. -/
structure RxFrame where
  err : SspErr
  hdr : SspPacketHeader
  body : List Nat
  crc : Nat
deriving DecidableEq

/-- Snapshot of the receive structure at a completion point. -/
def mkRx (ctx : ParseCtx) : RxFrame :=
  { err := ctx.err, hdr := ctx.hdr, body := ctx.bodyAcc, crc := ctx.crcStored }

/-- One byte through the `Parse` state machine (ssp_com.c lines 177-356),
    parameterized by `self.socketToPortIdMap` (`map`, indexed by socket id,
    `SSP_INVALID_PORT` marking a closed socket). Returns the next context and
    `some` completed frame when the C code sets `parseComplete = TRUE`.
    The `PS_BODY` null-body-pointer branch (`SSP_PARSE_ERROR`) is unreachable —
    the receive structure is allocated with `SSP_MAX_BODY_SIZE` — and is not
    modelled. -/
def parse1 (map : List Nat) (ctx : ParseCtx) (b : Nat) : ParseCtx × Option RxFrame :=
  match ctx.parseState with
  | PS_SIGNATURE_1 =>
      if b = SIG_1 then
        ({ ctx with err := SSP_PARTIAL_PACKET, parseState := PS_SIGNATURE_2 }, none)
      else
        (ParseReset { ctx with err := SSP_BAD_SIGNATURE }, none)
  | PS_SIGNATURE_2 =>
      if b = SIG_2 then
        ({ ctx with parseState := PS_DESTINATION }, none)
      else if b = SIG_1 then
        ({ ctx with parseState := PS_SIGNATURE_2 }, none)
      else
        (ParseReset { ctx with err := SSP_BAD_SIGNATURE }, none)
  | PS_DESTINATION =>
      ({ ctx with hdr := { ctx.hdr with destId := b }, parseState := PS_SOURCE }, none)
  | PS_SOURCE =>
      ({ ctx with hdr := { ctx.hdr with srcId := b }, parseState := PS_TYPE }, none)
  | PS_TYPE =>
      ({ ctx with hdr := { ctx.hdr with type := b }, parseState := PS_BODY_SIZE }, none)
  | PS_BODY_SIZE =>
      ({ ctx with hdr := { ctx.hdr with bodySize := b }, parseState := PS_TRANSACTION }, none)
  | PS_TRANSACTION =>
      ({ ctx with hdr := { ctx.hdr with transId := b }, parseState := PS_CHECKSUM }, none)
  | PS_CHECKSUM =>
      let ctx1 := { ctx with hdr := { ctx.hdr with checksum := b } }
      if b = Checksum (headerFirst7 ctx.hdr) then
        if ctx.hdr.bodySize ≤ SSP_MAX_BODY_SIZE then
          ({ ctx1 with err := SSP_PARTIAL_PACKET_HEADER_VALID, parseState := PS_BODY }, none)
        else
          let c2 := { ctx1 with err := SSP_PACKET_TOO_LARGE }
          (ParseReset c2, some (mkRx c2))
      else
        let c2 := { ctx1 with err := SSP_BAD_HEADER_CHECKSUM }
        (ParseReset c2, some (mkRx c2))
  | PS_BODY =>
      if ctx.hdr.bodySize ≠ 0 then
        let acc := ctx.bodyAcc ++ [b]
        if ctx.hdr.bodySize ≤ acc.length then
          ({ ctx with bodyAcc := acc, parseState := PS_FOOTER_1 }, none)
        else
          ({ ctx with bodyAcc := acc }, none)
      else
        -- bodySize is zero: fall through to PS_FOOTER_1 with this same byte
        ({ ctx with currentFooter := b, parseState := PS_FOOTER_2 }, none)
  | PS_FOOTER_1 =>
      ({ ctx with currentFooter := b, parseState := PS_FOOTER_2 }, none)
  | PS_FOOTER_2 =>
      if SSP_SOCKET_MAX ≤ ctx.hdr.destId then
        let c2 := { ctx with err := SSP_BAD_SOCKET_ID }
        (ParseReset c2, some (mkRx c2))
      else if map.getD ctx.hdr.destId 0 = SSP_INVALID_PORT then
        let c2 := { ctx with err := SSP_SOCKET_NOT_OPEN }
        (ParseReset c2, some (mkRx c2))
      else
        let foot := (ctx.currentFooter + b * 256) % 65536
        let crc := Crc16CalcBlock (headerBytes8 ctx.hdr ++ ctx.bodyAcc) 0xFFFF
        if foot = crc then
          let c2 := { ctx with err := SSP_SUCCESS, currentFooter := foot, crcStored := crc }
          (ParseReset c2, some (mkRx c2))
        else
          let c2 := { ctx with err := SSP_CORRUPTED_PACKET, currentFooter := foot }
          (ParseReset c2, some (mkRx c2))

/-- The parser context at start-up: `SSPCOM_Init` leaves the receive structure
    zeroed (`calloc`) with `parseState = PS_SIGNATURE_1`. -/
def initParseCtx : ParseCtx :=
  { parseState := PS_SIGNATURE_1
    hdr := { destId := 0, srcId := 0, type := 0, bodySize := 0, transId := 0, checksum := 0 }
    bodyAcc := []
    currentFooter := 0
    err := SSP_SUCCESS
    crcStored := 0 }

/-- Feed bytes one at a time until the first parse-complete, as the `Receive`
    loop does with `MAX_PORT_RECV_BYTES = 1`: returns the context after the
    completing byte, the completed frame if any, and the unconsumed rest. -/
def parseUpto (map : List Nat) (ctx : ParseCtx) : List Nat → ParseCtx × Option RxFrame × List Nat
  | [] => (ctx, none, [])
  | b :: bs =>
      match parse1 map ctx b with
      | (c1, some f) => (c1, some f, bs)
      | (c1, none) => parseUpto map c1 bs

/-- Feed a whole byte list, collecting every parse-complete outcome in order
    (used for the re-fed history bytes in the receive loop). -/
def parseSteps (map : List Nat) (ctx : ParseCtx) : List Nat → ParseCtx × List RxFrame
  | [] => (ctx, [])
  | b :: bs =>
      let r := parse1 map ctx b
      let rest := parseSteps map r.1 bs
      (rest.1, r.2.toList ++ rest.2)

/-- The first parse outcome of a fresh parser on a byte stream. -/
def parseFirstResult (map : List Nat) (bytes : List Nat) : Option RxFrame :=
  (parseUpto map initParseCtx bytes).2.1

/-- What `Receive` (ssp_com.c lines 95-163) reports for a byte stream that is
    fully consumed in one call: the first completed frame's error, or — when
    the stream ends mid-packet — `self.sspDataRecv->err` as it stands. -/
def ReceiveErr (map : List Nat) (bytes : List Nat) : SspErr :=
  match parseUpto map initParseCtx bytes with
  | (_, some f, _) => f.err
  | (ctx, none, _) => ctx.err

/-! ## Receive loop with header-checksum resynchronization
    (ssp_com.c `Receive`, lines 95-163) -/

/-- `PARSE_HISTORY_SIZE = sizeof(SspPacketHeader)` = 8. -/
def PARSE_HISTORY_SIZE : Nat := 8

/-- The receive loop's persistent state: the parser context plus the parse
    history buffer `parseHistory[0..parseHistoryIdx)`. -/
structure RecvCtx where
  ps : ParseCtx
  hist : List Nat
deriving DecidableEq

/-- One port byte through the `Receive` loop: parse the byte, append it to the
    history while the history is not full, and — when the parse completed with
    `SSP_BAD_HEADER_CHECKSUM` and the history is full — swallow that result
    (`complete = FALSE`), reset the history index and re-feed
    `parseHistory[1..]` through the parser (the re-fed bytes refill the
    history). Returns the completed frames the `Receive` caller sees. -/
def recvStep (map : List Nat) (rc : RecvCtx) (b : Nat) : RecvCtx × List RxFrame :=
  let r := parse1 map rc.ps b
  let hist1 := if rc.hist.length < PARSE_HISTORY_SIZE then rc.hist ++ [b] else rc.hist
  match r.2 with
  | some f =>
      if f.err = SSP_BAD_HEADER_CHECKSUM ∧ hist1.length = PARSE_HISTORY_SIZE then
        let rp := parseSteps map r.1 (hist1.drop 1)
        ({ ps := rp.1, hist := hist1.drop 1 }, rp.2)
      else
        ({ ps := r.1, hist := hist1 }, [f])
  | none => ({ ps := r.1, hist := hist1 }, [])

/-- Drive the receive loop over a whole port byte stream, collecting every
    frame a `Receive` call would return. -/
def recvStream (map : List Nat) (rc : RecvCtx) : List Nat → RecvCtx × List RxFrame
  | [] => (rc, [])
  | b :: bs =>
      let r := recvStep map rc b
      let rest := recvStream map r.1 bs
      (rest.1, r.2 ++ rest.2)

/-- The receive loop's start-up state: fresh parser, empty history. -/
def initRecvCtx : RecvCtx :=
  { ps := initParseCtx, hist := [] }

/-- Flip bit `k` of the byte at position `pos`. -/
def flipBit (bytes : List Nat) (pos k : Nat) : List Nat :=
  bytes.set pos (bytes.getD pos 0 ^^^ 2 ^ k)

/-! ## Send queue and module state (ssp.c) -/

/-- `SendDataState` (ssp.c): `SEND_STATE` = ready to (re)transmit,
    `RECEIVE_STATE` = awaiting the ACK. -/
inductive SendDataState where
  | SEND_STATE
  | RECEIVE_STATE
deriving DecidableEq

export SendDataState (SEND_STATE RECEIVE_STATE)

/-- `SendData` (ssp.c lines 30-46): an outgoing send-queue entry. The `next`
    link is the list structure itself. -/
structure SendData where
  sendTickStamp : Nat
  sendRetries : Nat
  state : SendDataState
  sspData : SspData
deriving DecidableEq

/-- The module singleton `self` of ssp.c merged with the socket-to-port map
    of ssp_com.c (the two C files keep separate singletons; both are process
    state). Lists are indexed by socket id (`SSP_SOCKET_MAX` entries) or by
    port id (`SSP_MAX_PORTS` entries, index 0 = `SSP_INVALID_PORT` unused).
    A callback pointer is an abstract identifier, `none` being NULL. -/
structure SspState where
  sendTransId : Nat
  socketToCallbackMap : List (Option Nat)
  socketToUserDataMap : List Nat
  socketToPortIdMap : List Nat
  sendDataListHead : List (List SendData)
  lastReceivedTransId : List (Nat × Nat)
  initOnce : Bool
deriving DecidableEq

/-- The send queue of a port (`self.sendDataListHead[portId]`). -/
def getQueue (st : SspState) (portId : Nat) : List SendData :=
  st.sendDataListHead.getD portId []

/-- Replace the send queue of a port. -/
def setQueue (st : SspState) (portId : Nat) (q : List SendData) : SspState :=
  { st with sendDataListHead := st.sendDataListHead.set portId q }

/-- `ListInsert` (ssp.c lines 156-189): append at the list tail. -/
def ListInsert (q : List SendData) (e : SendData) : List SendData :=
  q ++ [e]

/-- `ListFront` (ssp.c lines 236-247). -/
def ListFront (q : List SendData) : Option SendData :=
  q.head?

/-- `ListFind` (ssp.c lines 253-278): first entry whose header correlates with
    a received ACK/NAK header — `entry.destId == rcvd.srcId`,
    `entry.srcId == rcvd.destId`, `entry.transId == rcvd.transId`. -/
def ListFind (q : List SendData) (h : SspPacketHeader) : Option SendData :=
  match q with
  | [] => none
  | e :: rest =>
      if e.sspData.hdr.destId = h.srcId ∧ e.sspData.hdr.srcId = h.destId ∧
         e.sspData.hdr.transId = h.transId then
        some e
      else
        ListFind rest h

/-- `ListErase` (ssp.c lines 194-231): unlink the first entry matching the
    full header identity (transId, destId, srcId, type, checksum, bodySize). -/
def ListErase (q : List SendData) (h : SspPacketHeader) : List SendData :=
  match q with
  | [] => []
  | e :: rest =>
      if e.sspData.hdr.transId = h.transId ∧ e.sspData.hdr.destId = h.destId ∧
         e.sspData.hdr.srcId = h.srcId ∧ e.sspData.hdr.type = h.type ∧
         e.sspData.hdr.checksum = h.checksum ∧ e.sspData.hdr.bodySize = h.bodySize then
        rest
      else
        e :: ListErase rest h

/-- The NAK branch of `ProcessReceive` (ssp.c lines 543-552): `ListFind` the
    correlated entry and, when found, set its `state` to `SEND_STATE` in
    place — nothing else of the entry or the list changes. -/
def NakReceive (q : List SendData) (h : SspPacketHeader) : List SendData :=
  match q with
  | [] => []
  | e :: rest =>
      if e.sspData.hdr.destId = h.srcId ∧ e.sspData.hdr.srcId = h.destId ∧
         e.sspData.hdr.transId = h.transId then
        { e with state := SEND_STATE } :: rest
      else
        e :: NakReceive rest h

/-! ## Socket table operations (ssp_com.c, ssp.c) -/

/-- The HAL port-open state: modelled with both configured ports
    (`SSP_PORT1` = 1, `SSP_PORT2` = 2) open, as after `SSP_Init` on each. -/
def SSPHAL_PortIsOpen (portId : Nat) : Bool :=
  portId = 1 ∨ portId = 2

/-- `SSPCOM_IsSocketOpen` (ssp_com.c lines 508-524). -/
def SSPCOM_IsSocketOpen (st : SspState) (socketId : Nat) : Bool :=
  if SSP_SOCKET_MAX ≤ socketId then false
  else st.socketToPortIdMap.getD socketId 0 ≠ SSP_INVALID_PORT

/-- `SSPCOM_GetPortId` (ssp_com.c lines 530-554): `some portId` on success,
    `none` for an out-of-range or unbound socket. -/
def SSPCOM_GetPortId (st : SspState) (socketId : Nat) : Option Nat :=
  if SSP_SOCKET_MAX ≤ socketId then none
  else if st.socketToPortIdMap.getD socketId 0 = SSP_INVALID_PORT then none
  else some (st.socketToPortIdMap.getD socketId 0)

/-- `SSPCOM_OpenSocket` (ssp_com.c lines 477-495). -/
def SSPCOM_OpenSocket (st : SspState) (portId socketId : Nat) : SspErr × SspState :=
  if ¬ SSPHAL_PortIsOpen portId then (SSP_PORT_NOT_OPEN, st)
  else if SSP_SOCKET_MAX ≤ socketId then (SSP_BAD_SOCKET_ID, st)
  else if SSPCOM_IsSocketOpen st socketId then (SSP_SOCKET_ALREADY_OPEN, st)
  else (SSP_SUCCESS, { st with socketToPortIdMap := st.socketToPortIdMap.set socketId portId })

/-- `SSPCOM_CloseSocket` (ssp_com.c lines 460-472): clears only the
    socket-to-port binding; the callback registration of ssp.c is untouched. -/
def SSPCOM_CloseSocket (st : SspState) (socketId : Nat) : SspErr × SspState :=
  if SSP_SOCKET_MAX ≤ socketId then (SSP_BAD_SOCKET_ID, st)
  else (SSP_SUCCESS, { st with socketToPortIdMap := st.socketToPortIdMap.set socketId SSP_INVALID_PORT })

/-- `SSP_Listen` (ssp.c lines 811-841): install a callback once; a second
    install is refused with `SSP_DUPLICATE_LISTENER` and changes nothing. -/
def SSP_Listen (st : SspState) (socketId : Nat) (callback : Option Nat) (userData : Nat) :
    SspErr × SspState :=
  if ¬ st.initOnce then (SSP_NOT_INITIALIZED, st)
  else if callback = none then (SSP_BAD_ARGUMENT, st)
  else if ¬ SSPCOM_IsSocketOpen st socketId then (SSP_SOCKET_NOT_OPEN, st)
  else if st.socketToCallbackMap.getD socketId none = none then
    (SSP_SUCCESS,
      { st with
          socketToCallbackMap := st.socketToCallbackMap.set socketId callback
          socketToUserDataMap := st.socketToUserDataMap.set socketId userData })
  else (SSP_DUPLICATE_LISTENER, st)

/-! ## Listener notification (ssp.c lines 344-449) -/

/-- One listener invocation as `CallbackListener` performs it: the socket id,
    the frame's error and its direction tag. -/
structure Dispatch where
  socketId : Nat
  err : SspErr
  dir : SspDataType
deriving DecidableEq

/-- `CallbackListener` (ssp.c lines 364-384): invoke the registered callback,
    if any. -/
def CallbackListener (st : SspState) (socketId : Nat) (d : SspData) : List Dispatch :=
  match st.socketToCallbackMap.getD socketId none with
  | none => []
  | some _ => [{ socketId := socketId, err := d.err, dir := d.type }]

/-- `NotifyListener` (ssp.c lines 389-449): forward DATA packets to the
    registered listener; on a successful reception, first check the port's
    `lastReceivedTransId` record for a duplicate `(transId, crc)` pair and
    either drop silently or record the pair and dispatch. -/
def NotifyListener (st : SspState) (socketId : Nat) (d : SspData) : SspState × List Dispatch :=
  if d.hdr.type ≠ MSG_TYPE_DATA then (st, [])
  else if d.err ≠ SSP_SUCCESS then (st, CallbackListener st socketId d)
  else
    match SSPCOM_GetPortId st d.hdr.srcId with
    | none => (st, [])
    | some portId =>
        if d.type = SSP_SEND then (st, CallbackListener st socketId d)
        else if st.lastReceivedTransId.getD portId (0, 0) = (d.hdr.transId, d.crc) then
          (st, [])
        else
          ({ st with lastReceivedTransId := st.lastReceivedTransId.set portId (d.hdr.transId, d.crc) },
           CallbackListener st socketId d)

/-! ## ACK/NAK emission and the receive dispatch (ssp.c lines 302-342, 501-596) -/

/-- A control frame handed to `SSPCOM_Send` by `SendAck`/`SendNak`: source and
    destination swapped from the acknowledged header, same transaction id. -/
structure Emit where
  mtype : Nat
  destId : Nat
  srcId : Nat
  transId : Nat
deriving DecidableEq

/-- `SendAck` (ssp.c lines 304-321). -/
def SendAckE (h : SspPacketHeader) : Emit :=
  { mtype := MSG_TYPE_ACK, destId := h.srcId, srcId := h.destId, transId := h.transId }

/-- `SendNak` (ssp.c lines 325-342). -/
def SendNakE (h : SspPacketHeader) : Emit :=
  { mtype := MSG_TYPE_NAK, destId := h.srcId, srcId := h.destId, transId := h.transId }

/-- The received frame as ssp.c sees it: `self.sspDataRecv` carries direction
    `SSP_RECEIVE` (set once by `SSPCOM_Init`). -/
def rxData (f : RxFrame) : SspData :=
  { err := f.err, type := SSP_RECEIVE, hdr := f.hdr, body := f.body, crc := f.crc }

/-- The packet-handling part of `ProcessReceive` (ssp.c lines 515-595): given
    the outcome of `SSPCOM_ProcessReceive` on `portId`, correlate an ACK
    (notify and erase), a NAK (`NakReceive`), dispatch a DATA frame (ACK plus
    listener when one is registered, NAK otherwise), and on a corrupt DATA
    frame with intact header emit a NAK. Returns the new state, the control
    frames emitted and the listener invocations. -/
def HandleReceived (portId : Nat) (st : SspState) (f : RxFrame) :
    SspState × List Emit × List Dispatch :=
  if f.err = SSP_SUCCESS then
    if f.hdr.type = MSG_TYPE_ACK then
      match ListFind (getQueue st portId) f.hdr with
      | some e =>
          let ed := { e.sspData with err := SSP_SUCCESS }
          let r := NotifyListener st ed.hdr.srcId ed
          (setQueue r.1 portId (ListErase (getQueue r.1 portId) ed.hdr), [], r.2)
      | none => (st, [], [])
    else if f.hdr.type = MSG_TYPE_NAK then
      (setQueue st portId (NakReceive (getQueue st portId) f.hdr), [], [])
    else if f.hdr.type = MSG_TYPE_DATA then
      if (st.socketToCallbackMap.getD f.hdr.destId none).isSome then
        let r := NotifyListener st f.hdr.destId (rxData f)
        (r.1, [SendAckE f.hdr], r.2)
      else
        (st, [SendNakE f.hdr], [])
    else (st, [], [])
  else
    if (f.err = SSP_CORRUPTED_PACKET ∨ f.err = SSP_PARTIAL_PACKET_HEADER_VALID) ∧
       f.hdr.type = MSG_TYPE_DATA then
      (st, [SendNakE f.hdr], [])
    else (st, [], [])

/-! ## Timeouts and the send path (ssp.c lines 453-496, 598-622) -/

/-- `UINT32` tick arithmetic: `now - stamp` with unsigned wraparound. -/
def TickElapsed (now stamp : Nat) : Nat :=
  (now + 2 ^ 32 - stamp) % 2 ^ 32

/-- The timeout sweep at the end of `ProcessReceive` (ssp.c lines 598-622):
    walk at most `MAX_SEND_DATA_BLOCKS` (= `SSP_MAX_MESSAGES`) entries and put
    every timed-out `RECEIVE_STATE` entry back into `SEND_STATE`. -/
def SweepTimeouts (now : Nat) (q : List SendData) : List SendData :=
  (q.take SSP_MAX_MESSAGES).map
    (fun e =>
      if e.state = RECEIVE_STATE ∧ SSP_ACK_TIMEOUT < TickElapsed now e.sendTickStamp then
        { e with state := SEND_STATE }
      else e)
    ++ q.drop SSP_MAX_MESSAGES

/-- `ProcessSend` (ssp.c lines 453-496): act on the queue front when it is in
    `SEND_STATE`. The C budget test is `sendData->sendRetries++ <= SSP_MAX_RETRIES`
    — a post-increment, so the comparison sees the value before the increment.
    Within budget the frame is handed to `SSPCOM_Send` (`sendOk` abstracts the
    transport outcome); over budget the source listener is notified with
    `SSP_SEND_RETRIES_FAILED` and the entry is erased and freed. Returns the
    new state, whether the frame was transmitted, and the notifications. -/
def ProcessSend (now : Nat) (sendOk : Bool) (portId : Nat) (st : SspState) :
    SspState × Bool × List Dispatch :=
  match ListFront (getQueue st portId) with
  | none => (st, false, [])
  | some e =>
      if e.state = SEND_STATE then
        if e.sendRetries ≤ SSP_MAX_RETRIES then
          if sendOk then
            (setQueue st portId
              ({ e with sendRetries := e.sendRetries + 1, sendTickStamp := now,
                        state := RECEIVE_STATE } :: (getQueue st portId).tail),
             true, [])
          else
            (setQueue st portId
              ({ e with sendRetries := e.sendRetries + 1 } :: (getQueue st portId).tail),
             true, [])
        else
          let ed := { e.sspData with err := SSP_SEND_RETRIES_FAILED }
          let r := NotifyListener st ed.hdr.srcId ed
          (setQueue r.1 portId (ListErase (getQueue r.1 portId) ed.hdr), false, r.2)
      else (st, false, [])

/-- One `SSP_Process` pass over a port with nothing in the receive buffer:
    `ProcessReceive` contributes only its timeout sweep, then `ProcessSend`
    runs (transport accepting the bytes). -/
def ProcessStep (now : Nat) (portId : Nat) (st : SspState) :
    SspState × Bool × List Dispatch :=
  let st1 := setQueue st portId (SweepTimeouts now (getQueue st portId))
  ProcessSend now true portId st1

/-- Repeated `SSP_Process` calls at the given tick values, with the peer never
    answering: total transmissions and all listener notifications. -/
def ProcessRun (portId : Nat) : List Nat → SspState → SspState × Nat × List Dispatch
  | [], st => (st, 0, [])
  | t :: ts, st =>
      let r := ProcessStep t portId st
      let rest := ProcessRun portId ts r.1
      (rest.1, (if r.2.1 then 1 else 0) + rest.2.1, r.2.2 ++ rest.2.2)

/-! ## Sending (ssp.c `SSP_SendMultiple`, lines 702-790) -/

/-- The payload-gathering loop of `SSP_SendMultiple` (ssp.c lines 739-765):
    for each buffer, compute the remaining room `bufSize = dataSize - bytesCopied`
    in `UINT16` arithmetic; if it is within `dataSize`, copy `dataSizeArray[i]`
    bytes and advance `bytesCopied` (also a `UINT16`), otherwise fail with
    `SSP_SOFTWARE_FAULT` and stop. `memcpy` reads exactly the declared count
    from the caller's buffer; the model copies what the supplied list holds. -/
def CopyLoop (dataSize : Nat) : List (List Nat × Nat) → Nat → SspErr × List Nat
  | [], _ => (SSP_SUCCESS, [])
  | (chunk, sz) :: rest, bytesCopied =>
      let bufSize := (dataSize + 2 ^ 16 - bytesCopied) % 2 ^ 16
      if bufSize ≤ dataSize then
        let r := CopyLoop dataSize rest ((bytesCopied + sz) % 2 ^ 16)
        (r.1, chunk.take sz ++ r.2)
      else
        (SSP_SOFTWARE_FAULT, [])

/-- `SSP_SendMultiple` (ssp.c lines 702-790). The total payload size is
    accumulated in a `UINT16` (`dataSize += dataSizeArray[i]` wraps modulo
    2^16); the header's `bodySize` field is a `UINT8` cast of it. The C
    NULL-pointer argument checks have no counterpart on lists. Allocation is
    modelled as always succeeding (the pool holds `SSP_MAX_MESSAGES` blocks
    and the queue-full check has already passed). `calloc` zeroes the entry:
    `state = SEND_STATE`, `sendRetries = 0`, `sendTickStamp = 0`. -/
def SSP_SendMultiple (st : SspState) (srcSocketId destSocketId : Nat)
    (dataArray : List (List Nat)) (dataSizeArray : List Nat) : SspErr × SspState :=
  let dataSize := dataSizeArray.foldl (fun s x => (s + x) % 2 ^ 16) 0
  if SSP_MAX_BODY_SIZE < dataSize then (SSP_DATA_SIZE_TOO_LARGE, st)
  else
    match SSPCOM_GetPortId st srcSocketId with
    | none => (SSP_BAD_SOCKET_ID, st)
    | some portId =>
        if SSP_MAX_MESSAGES ≤ (getQueue st portId).length then (SSP_QUEUE_FULL, st)
        else
          let copied :=
            if 0 < dataSize then CopyLoop dataSize (dataArray.zip dataSizeArray) 0
            else (SSP_SUCCESS, [])
          if copied.1 = SSP_SUCCESS then
            let e : SendData :=
              { sendTickStamp := 0, sendRetries := 0, state := SEND_STATE
                sspData :=
                  { err := SSP_SUCCESS, type := SSP_SEND
                    hdr :=
                      { destId := destSocketId, srcId := srcSocketId
                        type := MSG_TYPE_DATA, bodySize := dataSize % 2 ^ 8
                        transId := st.sendTransId, checksum := 0 }
                    body := copied.2, crc := 0 } }
            (SSP_SUCCESS,
              { setQueue st portId (ListInsert (getQueue st portId) e) with
                  sendTransId := (st.sendTransId + 1) % 2 ^ 8 })
          else (copied.1, st)

/-- `SSP_Send` (ssp.c lines 799-802): a one-buffer `SSP_SendMultiple`. -/
def SSP_Send (st : SspState) (srcSocketId destSocketId : Nat)
    (data : List Nat) (dataSize : Nat) : SspErr × SspState :=
  SSP_SendMultiple st srcSocketId destSocketId [data] [dataSize]

/-- The header `SSPCOM_Send` transmits for the given fields and body: the
    checksum byte is the 8-bit sum of the seven preceding header bytes. -/
def sendHeader (destId srcId mtype transId : Nat) (body : List Nat) : SspPacketHeader :=
  { destId := destId, srcId := srcId, type := mtype, bodySize := body.length
    transId := transId
    checksum := Checksum [SIG_1, SIG_2, destId, srcId, mtype, body.length, transId] }

/-- The CRC-16 value `SSPCOM_Send` computes over header and body. -/
def sendCrc (destId srcId mtype transId : Nat) (body : List Nat) : Nat :=
  Crc16CalcBlock (headerBytes8 (sendHeader destId srcId mtype transId body) ++ body) 0xFFFF

/-- The predicate of claim C6's amended prefix condition: the byte list holds
    no adjacent `SIG_1 SIG_2` pair (out-of-range reads default to 0). -/
def noBeEf (l : List Nat) : Prop :=
  ∀ j < l.length, l.getD j 0 = SIG_1 → l.getD (j + 1) 0 ≠ SIG_2

instance (l : List Nat) : Decidable (noBeEf l) := by
  unfold noBeEf
  infer_instance

/-! ## Arithmetic lemmas: wrapping checksum and single-bit flips -/

theorem checksum_foldl (l : List Nat) (a : Nat) :
    l.foldl (fun sum b => (sum + b) % 256) (a % 256) = (a + l.sum) % 256 := by
  induction l generalizing a with
  | nil => simp
  | cons b bs ih =>
      simp only [List.foldl_cons, List.sum_cons]
      rw [Nat.mod_add_mod, ih (a + b), Nat.add_assoc]

theorem Checksum_eq_sum (l : List Nat) : Checksum l = l.sum % 256 := by
  have h := checksum_foldl l 0
  simpa [Checksum] using h

theorem xor_two_pow_cases :
    ∀ b < 256, ∀ k < 8, b ^^^ 2 ^ k = b + 2 ^ k ∨ (b ^^^ 2 ^ k) + 2 ^ k = b := by
  decide

theorem mod256_ne_add_pow (x k : Nat) (hk : k < 8) :
    x % 256 ≠ (x + 2 ^ k) % 256 := by
  intro h
  have hdvd : 256 ∣ x + 2 ^ k - x := (Nat.modEq_iff_dvd' (Nat.le_add_right x _)).mp h
  have h2 : 256 ∣ 2 ^ k := by simpa using hdvd
  have hlt : 2 ^ k < 256 := by
    calc 2 ^ k < 2 ^ 8 := Nat.pow_lt_pow_right (by omega) hk
    _ = 256 := by norm_num
  exact absurd (Nat.le_of_dvd (Nat.pos_pow_of_pos k (by omega)) h2) (by omega)

/-- Two sums that differ by a flipped bit of one byte disagree modulo 256. -/
theorem sum_flip_mod256_ne (s b k : Nat) (hb : b < 256) (hk : k < 8) :
    (s + b) % 256 ≠ (s + (b ^^^ 2 ^ k)) % 256 := by
  rcases xor_two_pow_cases b hb k hk with h | h
  · rw [h, ← Nat.add_assoc]
    exact mod256_ne_add_pow (s + b) k hk
  · intro heq
    apply mod256_ne_add_pow (s + (b ^^^ 2 ^ k)) k hk
    rw [← heq, Nat.add_assoc, h]

theorem xor_two_pow_ne (b k : Nat) : b ^^^ 2 ^ k ≠ b := by
  intro h
  have h2 : (2 : Nat) ^ k = 0 := by
    have h3 := congrArg (fun x => b ^^^ x) h
    simp [Nat.xor_cancel_left, Nat.xor_self] at h3
  have h4 : 0 < (2 : Nat) ^ k := Nat.pos_pow_of_pos k (by omega)
  omega

/-! ## CRC-16 lemmas: bound and injectivity (single-bit error detection) -/

theorem crcRound_lt {c : Nat} (h : c < 2 ^ 16) : crcRound c < 2 ^ 16 := by
  unfold crcRound
  split
  · exact Nat.xor_lt_two_pow (by omega) (by norm_num)
  · omega

theorem crcRound_inj {c1 c2 : Nat} (h1 : c1 < 2 ^ 16) (h2 : c2 < 2 ^ 16)
    (h : crcRound c1 = crcRound c2) : c1 = c2 := by
  unfold crcRound at h
  by_cases p1 : c1 % 2 = 1 <;> by_cases p2 : c2 % 2 = 1 <;>
    simp only [p1, p2, if_pos, if_neg, if_true, if_false] at h
  · have := Nat.xor_left_inj.mp h
    omega
  · exfalso
    have hb1 : (c1 / 2 ^^^ 0xA001).testBit 15 = true := by
      rw [Nat.testBit_xor]
      have : (c1 / 2).testBit 15 = false := Nat.testBit_lt_two_pow (by omega)
      rw [this]
      decide
    have hb2 : (c2 / 2).testBit 15 = false := Nat.testBit_lt_two_pow (by omega)
    rw [h] at hb1
    simp [hb2] at hb1
  · exfalso
    have hb2 : (c2 / 2 ^^^ 0xA001).testBit 15 = true := by
      rw [Nat.testBit_xor]
      have : (c2 / 2).testBit 15 = false := Nat.testBit_lt_two_pow (by omega)
      rw [this]
      decide
    have hb1 : (c1 / 2).testBit 15 = false := Nat.testBit_lt_two_pow (by omega)
    rw [← h] at hb2
    simp [hb1] at hb2
  · omega

theorem crcRound8_lt {c : Nat} (h : c < 2 ^ 16) : crcRound^[8] c < 2 ^ 16 := by
  have step : ∀ n c, c < 2 ^ 16 → crcRound^[n] c < 2 ^ 16 := by
    intro n
    induction n with
    | zero => intro c hc; simpa using hc
    | succ m ih =>
        intro c hc
        rw [Function.iterate_succ_apply]
        exact ih _ (crcRound_lt hc)
  exact step 8 c h

theorem crcRound8_inj {c1 c2 : Nat} (h1 : c1 < 2 ^ 16) (h2 : c2 < 2 ^ 16)
    (h : crcRound^[8] c1 = crcRound^[8] c2) : c1 = c2 := by
  have step : ∀ n c1 c2, c1 < 2 ^ 16 → c2 < 2 ^ 16 →
      crcRound^[n] c1 = crcRound^[n] c2 → c1 = c2 := by
    intro n
    induction n with
    | zero => intro c1 c2 _ _ h; simpa using h
    | succ m ih =>
        intro c1 c2 hc1 hc2 h
        rw [Function.iterate_succ_apply, Function.iterate_succ_apply] at h
        exact crcRound_inj hc1 hc2 (ih _ _ (crcRound_lt hc1) (crcRound_lt hc2) h)
  exact step 8 c1 c2 h1 h2 h

theorem crcByte_lt {c b : Nat} (hc : c < 2 ^ 16) (hb : b < 2 ^ 16) :
    crcByte c b < 2 ^ 16 :=
  crcRound8_lt (Nat.xor_lt_two_pow hc hb)

theorem crcByte_inj_left {c1 c2 b : Nat} (hc1 : c1 < 2 ^ 16) (hc2 : c2 < 2 ^ 16)
    (hb : b < 2 ^ 16) (hne : c1 ≠ c2) : crcByte c1 b ≠ crcByte c2 b := by
  intro h
  exact hne (Nat.xor_left_inj.mp
    (crcRound8_inj (Nat.xor_lt_two_pow hc1 hb) (Nat.xor_lt_two_pow hc2 hb) h))

theorem crcByte_inj_right {c b1 b2 : Nat} (hc : c < 2 ^ 16) (hb1 : b1 < 2 ^ 16)
    (hb2 : b2 < 2 ^ 16) (hne : b1 ≠ b2) : crcByte c b1 ≠ crcByte c b2 := by
  intro h
  exact hne (Nat.xor_right_inj.mp
    (crcRound8_inj (Nat.xor_lt_two_pow hc hb1) (Nat.xor_lt_two_pow hc hb2) h))

theorem crcFold_lt {l : List Nat} {c : Nat} (hc : c < 2 ^ 16)
    (hl : ∀ b ∈ l, b < 2 ^ 16) : Crc16CalcBlock l c < 2 ^ 16 := by
  induction l generalizing c with
  | nil => simpa [Crc16CalcBlock] using hc
  | cons b bs ih =>
      simp only [Crc16CalcBlock, List.foldl_cons] at *
      exact ih (crcByte_lt hc (hl b (by simp))) (fun x hx => hl x (by simp [hx]))

theorem crcFold_inj {l : List Nat} {c1 c2 : Nat} (hc1 : c1 < 2 ^ 16)
    (hc2 : c2 < 2 ^ 16) (hl : ∀ b ∈ l, b < 2 ^ 16) (hne : c1 ≠ c2) :
    Crc16CalcBlock l c1 ≠ Crc16CalcBlock l c2 := by
  induction l generalizing c1 c2 with
  | nil => simpa [Crc16CalcBlock] using hne
  | cons b bs ih =>
      simp only [Crc16CalcBlock, List.foldl_cons] at *
      exact ih (crcByte_lt hc1 (hl b (by simp))) (crcByte_lt hc2 (hl b (by simp)))
        (fun x hx => hl x (by simp [hx]))
        (crcByte_inj_left hc1 hc2 (hl b (by simp)) hne)

/-- CRC-16 detects every single-byte substitution: the CRC of
    `pre ++ b :: suf` and of `pre ++ c :: suf` differ whenever `b ≠ c`. -/
theorem crc_flip_ne {pre suf : List Nat} {b c seed : Nat} (hseed : seed < 2 ^ 16)
    (hpre : ∀ x ∈ pre, x < 2 ^ 16) (hsuf : ∀ x ∈ suf, x < 2 ^ 16)
    (hb : b < 2 ^ 16) (hc : c < 2 ^ 16) (hne : b ≠ c) :
    Crc16CalcBlock (pre ++ b :: suf) seed ≠ Crc16CalcBlock (pre ++ c :: suf) seed := by
  have hmid : Crc16CalcBlock pre seed < 2 ^ 16 := crcFold_lt hseed hpre
  have h1 : Crc16CalcBlock (pre ++ b :: suf) seed =
      Crc16CalcBlock suf (crcByte (Crc16CalcBlock pre seed) b) := by
    simp [Crc16CalcBlock, List.foldl_append]
  have h2 : Crc16CalcBlock (pre ++ c :: suf) seed =
      Crc16CalcBlock suf (crcByte (Crc16CalcBlock pre seed) c) := by
    simp [Crc16CalcBlock, List.foldl_append]
  rw [h1, h2]
  exact crcFold_inj (crcByte_lt hmid hb) (crcByte_lt hmid hc) hsuf
    (crcByte_inj_right hmid hb hc hne)

/-! ## Parser trace lemmas -/

theorem parseUpto_append_none (map : List Nat) (ctx ctx' : ParseCtx) (xs ys : List Nat)
    (h : parseUpto map ctx xs = (ctx', none, [])) :
    parseUpto map ctx (xs ++ ys) = parseUpto map ctx' ys := by
  induction xs generalizing ctx with
  | nil =>
      simp only [parseUpto] at h
      cases h
      rfl
  | cons b bs ih =>
      simp only [parseUpto, List.cons_append] at h ⊢
      cases hp : parse1 map ctx b with
      | mk c1 r =>
          cases r with
          | some f => simp [hp] at h
          | none =>
              simp only [hp] at h ⊢
              exact ih c1 h

theorem parse_sig_from1 (map : List Nat) (hdr0 : SspPacketHeader) (acc0 : List Nat)
    (foot0 : Nat) (err0 : SspErr) (crc0 : Nat) (rest : List Nat) :
    parseUpto map ⟨PS_SIGNATURE_1, hdr0, acc0, foot0, err0, crc0⟩ (SIG_1 :: SIG_2 :: rest) =
      parseUpto map ⟨PS_DESTINATION, hdr0, acc0, foot0, SSP_PARTIAL_PACKET, crc0⟩ rest := by
  simp [parseUpto, parse1, SIG_1, SIG_2]

theorem parse_sig_from2 (map : List Nat) (hdr0 : SspPacketHeader) (acc0 : List Nat)
    (foot0 : Nat) (err0 : SspErr) (crc0 : Nat) (rest : List Nat) :
    parseUpto map ⟨PS_SIGNATURE_2, hdr0, acc0, foot0, err0, crc0⟩ (SIG_1 :: SIG_2 :: rest) =
      parseUpto map ⟨PS_DESTINATION, hdr0, acc0, foot0, err0, crc0⟩ rest := by
  simp [parseUpto, parse1, SIG_1, SIG_2]

theorem parse_fields (map : List Nat) (hdr0 : SspPacketHeader) (acc : List Nat)
    (foot0 : Nat) (err0 : SspErr) (crc0 : Nat) (d s t n i : Nat) (rest : List Nat) :
    parseUpto map ⟨PS_DESTINATION, hdr0, acc, foot0, err0, crc0⟩ ([d, s, t, n, i] ++ rest) =
      parseUpto map ⟨PS_CHECKSUM, ⟨d, s, t, n, i, hdr0.checksum⟩, acc, foot0, err0, crc0⟩ rest := by
  simp [parseUpto, parse1]

theorem parse_cks_good (map : List Nat) (d s t n i c0 : Nat) (acc : List Nat)
    (foot0 : Nat) (err0 : SspErr) (crc0 : Nat) (b : Nat) (rest : List Nat)
    (hb : b = Checksum (headerFirst7 ⟨d, s, t, n, i, c0⟩)) (hsize : n ≤ SSP_MAX_BODY_SIZE) :
    parseUpto map ⟨PS_CHECKSUM, ⟨d, s, t, n, i, c0⟩, acc, foot0, err0, crc0⟩ (b :: rest) =
      parseUpto map
        ⟨PS_BODY, ⟨d, s, t, n, i, b⟩, acc, foot0, SSP_PARTIAL_PACKET_HEADER_VALID, crc0⟩
        rest := by
  simp [parseUpto, parse1, hb, hsize]

theorem parse_cks_bad (map : List Nat) (d s t n i c0 : Nat) (acc : List Nat)
    (foot0 : Nat) (err0 : SspErr) (crc0 : Nat) (b : Nat) (rest : List Nat)
    (hb : b ≠ Checksum (headerFirst7 ⟨d, s, t, n, i, c0⟩)) :
    parseUpto map ⟨PS_CHECKSUM, ⟨d, s, t, n, i, c0⟩, acc, foot0, err0, crc0⟩ (b :: rest) =
      (⟨PS_SIGNATURE_1, ⟨d, s, t, n, i, b⟩, [], foot0, SSP_BAD_HEADER_CHECKSUM, crc0⟩,
       some ⟨SSP_BAD_HEADER_CHECKSUM, ⟨d, s, t, n, i, b⟩, acc, crc0⟩, rest) := by
  simp [parseUpto, parse1, hb, ParseReset, mkRx]

theorem parse_body_exact (map : List Nat) (hdr : SspPacketHeader)
    (foot0 : Nat) (err0 : SspErr) (crc0 : Nat) :
    ∀ (xs acc rest : List Nat), xs ≠ [] → hdr.bodySize = acc.length + xs.length →
    parseUpto map ⟨PS_BODY, hdr, acc, foot0, err0, crc0⟩ (xs ++ rest) =
      parseUpto map ⟨PS_FOOTER_1, hdr, acc ++ xs, foot0, err0, crc0⟩ rest := by
  intro xs
  induction xs with
  | nil => intro acc rest hne _; exact absurd rfl hne
  | cons b xs ih =>
      intro acc rest _ hlen
      cases xs with
      | nil =>
          have hnz : hdr.bodySize ≠ 0 := by simp at hlen; omega
          have hge : hdr.bodySize ≤ (acc ++ [b]).length := by simp at hlen ⊢; omega
          simp only [List.cons_append, List.nil_append, parseUpto, parse1, hnz,
            ne_eq, not_false_iff, if_true, if_pos hge, reduceIte]
          simp
      | cons c xs2 =>
          have hnz : hdr.bodySize ≠ 0 := by simp at hlen; omega
          have hlt : ¬ hdr.bodySize ≤ (acc ++ [b]).length := by
            simp at hlen ⊢; omega
          have step :
              parseUpto map ⟨PS_BODY, hdr, acc, foot0, err0, crc0⟩ ((b :: c :: xs2) ++ rest) =
                parseUpto map ⟨PS_BODY, hdr, acc ++ [b], foot0, err0, crc0⟩ ((c :: xs2) ++ rest) := by
            simp only [List.cons_append, parseUpto, parse1, hnz, ne_eq, not_false_iff,
              if_true, if_neg hlt, reduceIte]
          rw [step, ih (acc ++ [b]) rest (by simp) (by simp at hlen ⊢; omega)]
          simp

theorem parse_body_zero (map : List Nat) (hdr : SspPacketHeader) (acc : List Nat)
    (foot0 : Nat) (err0 : SspErr) (crc0 : Nat) (lo : Nat) (rest : List Nat)
    (hz : hdr.bodySize = 0) :
    parseUpto map ⟨PS_BODY, hdr, acc, foot0, err0, crc0⟩ (lo :: rest) =
      parseUpto map ⟨PS_FOOTER_2, hdr, acc, lo, err0, crc0⟩ rest := by
  simp [parseUpto, parse1, hz]

theorem parse_foot1 (map : List Nat) (hdr : SspPacketHeader) (acc : List Nat)
    (foot0 : Nat) (err0 : SspErr) (crc0 : Nat) (lo : Nat) (rest : List Nat) :
    parseUpto map ⟨PS_FOOTER_1, hdr, acc, foot0, err0, crc0⟩ (lo :: rest) =
      parseUpto map ⟨PS_FOOTER_2, hdr, acc, lo, err0, crc0⟩ rest := by
  simp [parseUpto, parse1]

theorem parse1_foot2_open (map : List Nat) (hdr : SspPacketHeader) (acc : List Nat)
    (lo : Nat) (err0 : SspErr) (crc0 : Nat) (hi : Nat)
    (hdest : hdr.destId < SSP_SOCKET_MAX) (hopen : map.getD hdr.destId 0 ≠ SSP_INVALID_PORT) :
    parse1 map ⟨PS_FOOTER_2, hdr, acc, lo, err0, crc0⟩ hi =
      (if (lo + hi * 256) % 65536 = Crc16CalcBlock (headerBytes8 hdr ++ acc) 0xFFFF then
        (⟨PS_SIGNATURE_1, hdr, [], Crc16CalcBlock (headerBytes8 hdr ++ acc) 0xFFFF, SSP_SUCCESS,
          Crc16CalcBlock (headerBytes8 hdr ++ acc) 0xFFFF⟩,
         some ⟨SSP_SUCCESS, hdr, acc, Crc16CalcBlock (headerBytes8 hdr ++ acc) 0xFFFF⟩)
      else
        (⟨PS_SIGNATURE_1, hdr, [], (lo + hi * 256) % 65536, SSP_CORRUPTED_PACKET, crc0⟩,
         some ⟨SSP_CORRUPTED_PACKET, hdr, acc, crc0⟩)) := by
  have hd2 : ¬ SSP_SOCKET_MAX ≤ hdr.destId := by omega
  show (if SSP_SOCKET_MAX ≤ hdr.destId then _ else _) = _
  rw [if_neg hd2, if_neg hopen]
  split
  · rename_i h
    rw [if_pos h]
    simp [ParseReset, mkRx, h]
  · rename_i h
    rw [if_neg h]
    simp [ParseReset, mkRx]

theorem parse_foot2_match (map : List Nat) (hdr : SspPacketHeader) (acc : List Nat)
    (lo : Nat) (err0 : SspErr) (crc0 : Nat) (hi : Nat) (rest : List Nat)
    (hdest : hdr.destId < SSP_SOCKET_MAX) (hopen : map.getD hdr.destId 0 ≠ SSP_INVALID_PORT)
    (hfoot : (lo + hi * 256) % 65536 = Crc16CalcBlock (headerBytes8 hdr ++ acc) 0xFFFF) :
    parseUpto map ⟨PS_FOOTER_2, hdr, acc, lo, err0, crc0⟩ (hi :: rest) =
      (⟨PS_SIGNATURE_1, hdr, [], Crc16CalcBlock (headerBytes8 hdr ++ acc) 0xFFFF, SSP_SUCCESS,
        Crc16CalcBlock (headerBytes8 hdr ++ acc) 0xFFFF⟩,
       some ⟨SSP_SUCCESS, hdr, acc, Crc16CalcBlock (headerBytes8 hdr ++ acc) 0xFFFF⟩, rest) := by
  simp only [parseUpto, parse1_foot2_open map hdr acc lo err0 crc0 hi hdest hopen, if_pos hfoot]

theorem parse_foot2_mismatch (map : List Nat) (hdr : SspPacketHeader) (acc : List Nat)
    (lo : Nat) (err0 : SspErr) (crc0 : Nat) (hi : Nat) (rest : List Nat)
    (hdest : hdr.destId < SSP_SOCKET_MAX) (hopen : map.getD hdr.destId 0 ≠ SSP_INVALID_PORT)
    (hfoot : (lo + hi * 256) % 65536 ≠ Crc16CalcBlock (headerBytes8 hdr ++ acc) 0xFFFF) :
    parseUpto map ⟨PS_FOOTER_2, hdr, acc, lo, err0, crc0⟩ (hi :: rest) =
      (⟨PS_SIGNATURE_1, hdr, [], (lo + hi * 256) % 65536, SSP_CORRUPTED_PACKET, crc0⟩,
       some ⟨SSP_CORRUPTED_PACKET, hdr, acc, crc0⟩, rest) := by
  simp only [parseUpto, parse1_foot2_open map hdr acc lo err0 crc0 hi hdest hopen, if_neg hfoot]

theorem parse1_foot2_notopen (map : List Nat) (hdr : SspPacketHeader) (acc : List Nat)
    (lo : Nat) (err0 : SspErr) (crc0 : Nat) (hi : Nat)
    (hdest : hdr.destId < SSP_SOCKET_MAX) (hcl : map.getD hdr.destId 0 = SSP_INVALID_PORT) :
    parse1 map ⟨PS_FOOTER_2, hdr, acc, lo, err0, crc0⟩ hi =
      (⟨PS_SIGNATURE_1, hdr, [], lo, SSP_SOCKET_NOT_OPEN, crc0⟩,
       some ⟨SSP_SOCKET_NOT_OPEN, hdr, acc, crc0⟩) := by
  have hd2 : ¬ SSP_SOCKET_MAX ≤ hdr.destId := by omega
  show (if SSP_SOCKET_MAX ≤ hdr.destId then _ else _) = _
  rw [if_neg hd2, if_pos hcl]
  simp [ParseReset, mkRx]

theorem parse_foot2_notopen (map : List Nat) (hdr : SspPacketHeader) (acc : List Nat)
    (lo : Nat) (err0 : SspErr) (crc0 : Nat) (hi : Nat) (rest : List Nat)
    (hdest : hdr.destId < SSP_SOCKET_MAX) (hcl : map.getD hdr.destId 0 = SSP_INVALID_PORT) :
    parseUpto map ⟨PS_FOOTER_2, hdr, acc, lo, err0, crc0⟩ (hi :: rest) =
      (⟨PS_SIGNATURE_1, hdr, [], lo, SSP_SOCKET_NOT_OPEN, crc0⟩,
       some ⟨SSP_SOCKET_NOT_OPEN, hdr, acc, crc0⟩, rest) := by
  simp only [parseUpto, parse1_foot2_notopen map hdr acc lo err0 crc0 hi hdest hcl]

theorem parse1_foot2_badsocket (map : List Nat) (hdr : SspPacketHeader) (acc : List Nat)
    (lo : Nat) (err0 : SspErr) (crc0 : Nat) (hi : Nat)
    (hdest : SSP_SOCKET_MAX ≤ hdr.destId) :
    parse1 map ⟨PS_FOOTER_2, hdr, acc, lo, err0, crc0⟩ hi =
      (⟨PS_SIGNATURE_1, hdr, [], lo, SSP_BAD_SOCKET_ID, crc0⟩,
       some ⟨SSP_BAD_SOCKET_ID, hdr, acc, crc0⟩) := by
  show (if SSP_SOCKET_MAX ≤ hdr.destId then _ else _) = _
  rw [if_pos hdest]
  simp [ParseReset, mkRx]

theorem parse_foot2_badsocket (map : List Nat) (hdr : SspPacketHeader) (acc : List Nat)
    (lo : Nat) (err0 : SspErr) (crc0 : Nat) (hi : Nat) (rest : List Nat)
    (hdest : SSP_SOCKET_MAX ≤ hdr.destId) :
    parseUpto map ⟨PS_FOOTER_2, hdr, acc, lo, err0, crc0⟩ (hi :: rest) =
      (⟨PS_SIGNATURE_1, hdr, [], lo, SSP_BAD_SOCKET_ID, crc0⟩,
       some ⟨SSP_BAD_SOCKET_ID, hdr, acc, crc0⟩, rest) := by
  simp only [parseUpto, parse1_foot2_badsocket map hdr acc lo err0 crc0 hi hdest]

/-! ## The serialized packet through the parser -/

theorem SSPCOM_SendBytes_eq (d s t i : Nat) (body : List Nat) :
    SSPCOM_SendBytes d s t i body =
      SIG_1 :: SIG_2 ::
        ([d, s, t, body.length, i] ++
          ((sendHeader d s t i body).checksum ::
            (body ++ [sendCrc d s t i body % 256, sendCrc d s t i body / 256]))) := by
  simp [SSPCOM_SendBytes, sendHeader, sendCrc, headerBytes8, headerFirst7]

theorem sendHeader_checksum_lt (d s t i : Nat) (body : List Nat) :
    (sendHeader d s t i body).checksum < 256 := by
  have h := Checksum_eq_sum [SIG_1, SIG_2, d, s, t, body.length, i]
  simp only [sendHeader]
  omega

theorem sendCrc_lt (d s t i : Nat) (body : List Nat)
    (hd : d < 256) (hs : s < 256) (ht : t < 256) (hti : i < 256)
    (hlen : body.length ≤ SSP_MAX_BODY_SIZE) (hbody : ∀ b ∈ body, b < 256) :
    sendCrc d s t i body < 2 ^ 16 := by
  apply crcFold_lt (by norm_num)
  intro b hb
  rw [List.mem_append] at hb
  rcases hb with h8 | hbod
  · have hcks := sendHeader_checksum_lt d s t i body
    have hbs : body.length < 256 := by
      simp [SSP_MAX_BODY_SIZE, SSP_MAX_PACKET_SIZE] at hlen
      omega
    simp only [headerBytes8, headerFirst7, sendHeader, List.mem_append, List.mem_cons,
      List.not_mem_nil, or_false] at h8
    simp only [sendHeader] at hcks
    rcases h8 with (h | h | h | h | h | h | h) | h <;> subst h
    · norm_num [SIG_1]
    · norm_num [SIG_2]
    all_goals omega
  · exact lt_of_lt_of_le (hbody b hbod) (by norm_num)

/-- A validly serialized packet parses to `SSP_SUCCESS` with the sent header,
    body and CRC, starting from either signature state with an empty body
    accumulator (the remaining context fields are arbitrary). -/
theorem parseUpto_serialize (map : List Nat) (ps0 : ParseState) (hdr0 : SspPacketHeader)
    (foot0 : Nat) (err0 : SspErr) (crc0 : Nat) (d s t i : Nat) (body : List Nat)
    (hps : ps0 = PS_SIGNATURE_1 ∨ ps0 = PS_SIGNATURE_2)
    (hd : d < SSP_SOCKET_MAX) (hopen : map.getD d 0 ≠ SSP_INVALID_PORT)
    (hs : s < 256) (ht : t < 256) (hti : i < 256)
    (hlen : body.length ≤ SSP_MAX_BODY_SIZE) (hbody : ∀ b ∈ body, b < 256) :
    parseUpto map ⟨ps0, hdr0, [], foot0, err0, crc0⟩ (SSPCOM_SendBytes d s t i body) =
      (⟨PS_SIGNATURE_1, sendHeader d s t i body, [], sendCrc d s t i body, SSP_SUCCESS,
        sendCrc d s t i body⟩,
       some ⟨SSP_SUCCESS, sendHeader d s t i body, body, sendCrc d s t i body⟩, []) := by
  have hd256 : d < 256 := by
    have h3 : SSP_SOCKET_MAX = 3 := rfl
    omega
  have hC : sendCrc d s t i body < 2 ^ 16 := sendCrc_lt d s t i body hd256 hs ht hti hlen hbody
  rw [SSPCOM_SendBytes_eq]
  have hform : (⟨d, s, t, body.length, i, (sendHeader d s t i body).checksum⟩ :
      SspPacketHeader) = sendHeader d s t i body := by
    simp [sendHeader]
  have hcmp : (sendHeader d s t i body).checksum =
      Checksum (headerFirst7 ⟨d, s, t, body.length, i, hdr0.checksum⟩) := by
    simp [sendHeader, headerFirst7]
  have hsig :
      parseUpto map ⟨ps0, hdr0, [], foot0, err0, crc0⟩
        (SIG_1 :: SIG_2 ::
          ([d, s, t, body.length, i] ++
            ((sendHeader d s t i body).checksum ::
              (body ++ [sendCrc d s t i body % 256, sendCrc d s t i body / 256])))) =
        parseUpto map ⟨PS_BODY, sendHeader d s t i body, [], foot0,
            SSP_PARTIAL_PACKET_HEADER_VALID, crc0⟩
          (body ++ [sendCrc d s t i body % 256, sendCrc d s t i body / 256]) := by
    rcases hps with h | h <;> subst h
    · rw [parse_sig_from1, parse_fields, parse_cks_good _ _ _ _ _ _ _ _ _ _ _ _ _ hcmp hlen,
        hform]
    · rw [parse_sig_from2, parse_fields, parse_cks_good _ _ _ _ _ _ _ _ _ _ _ _ _ hcmp hlen,
        hform]
  rw [hsig]
  have hfoot :
      (sendCrc d s t i body % 256 + sendCrc d s t i body / 256 * 256) % 65536 =
        Crc16CalcBlock (headerBytes8 (sendHeader d s t i body) ++ body) 0xFFFF := by
    have he : sendCrc d s t i body % 256 + sendCrc d s t i body / 256 * 256 =
        sendCrc d s t i body := by omega
    rw [he, Nat.mod_eq_of_lt (by omega)]
    rfl
  have hdd : (sendHeader d s t i body).destId < SSP_SOCKET_MAX := hd
  have hoo : map.getD (sendHeader d s t i body).destId 0 ≠ SSP_INVALID_PORT := hopen
  cases hbody2 : body with
  | nil =>
      subst hbody2
      have hz : (sendHeader d s t i []).bodySize = 0 := by simp [sendHeader]
      rw [show (([] : List Nat) ++
            [sendCrc d s t i [] % 256, sendCrc d s t i [] / 256]) =
          sendCrc d s t i [] % 256 :: [sendCrc d s t i [] / 256] from by simp]
      rw [parse_body_zero _ _ _ _ _ _ _ _ hz]
      have hres := parse_foot2_match map (sendHeader d s t i []) []
        (sendCrc d s t i [] % 256) SSP_PARTIAL_PACKET_HEADER_VALID crc0
        (sendCrc d s t i [] / 256) [] hdd hoo (by simpa using hfoot)
      rw [hres]
      simp [sendCrc]
  | cons b0 rest0 =>
      rw [← hbody2]
      have hne : body ≠ [] := by simp [hbody2]
      have hlen2 : (sendHeader d s t i body).bodySize = ([] : List Nat).length + body.length := by
        simp [sendHeader]
      rw [parse_body_exact map _ _ _ _ body [] _ hne hlen2]
      rw [parse_foot1]
      simp only [List.nil_append]
      have hres := parse_foot2_match map (sendHeader d s t i body) body
        (sendCrc d s t i body % 256) SSP_PARTIAL_PACKET_HEADER_VALID crc0
        (sendCrc d s t i body / 256) [] hdd hoo (by simpa using hfoot)
      rw [hres]
      simp [sendCrc]

/-- A validly serialized packet addressed to an unbound destination socket
    completes with `SSP_SOCKET_NOT_OPEN` — the CRC is never compared. -/
theorem parseUpto_serialize_notopen (map : List Nat) (hdr0 : SspPacketHeader)
    (foot0 : Nat) (err0 : SspErr) (crc0 : Nat) (d s t i : Nat) (body : List Nat)
    (hd : d < SSP_SOCKET_MAX) (hcl : map.getD d 0 = SSP_INVALID_PORT)
    (hlen : body.length ≤ SSP_MAX_BODY_SIZE) :
    parseUpto map ⟨PS_SIGNATURE_1, hdr0, [], foot0, err0, crc0⟩ (SSPCOM_SendBytes d s t i body) =
      (⟨PS_SIGNATURE_1, sendHeader d s t i body, [], sendCrc d s t i body % 256,
        SSP_SOCKET_NOT_OPEN, crc0⟩,
       some ⟨SSP_SOCKET_NOT_OPEN, sendHeader d s t i body, body, crc0⟩, []) := by
  rw [SSPCOM_SendBytes_eq]
  have hform : (⟨d, s, t, body.length, i, (sendHeader d s t i body).checksum⟩ :
      SspPacketHeader) = sendHeader d s t i body := by
    simp [sendHeader]
  have hcmp : (sendHeader d s t i body).checksum =
      Checksum (headerFirst7 ⟨d, s, t, body.length, i, hdr0.checksum⟩) := by
    simp [sendHeader, headerFirst7]
  rw [parse_sig_from1, parse_fields, parse_cks_good _ _ _ _ _ _ _ _ _ _ _ _ _ hcmp hlen, hform]
  have hdd : (sendHeader d s t i body).destId < SSP_SOCKET_MAX := hd
  have hcc : map.getD (sendHeader d s t i body).destId 0 = SSP_INVALID_PORT := hcl
  cases hbody2 : body with
  | nil =>
      subst hbody2
      have hz : (sendHeader d s t i []).bodySize = 0 := by simp [sendHeader]
      rw [show (([] : List Nat) ++
            [sendCrc d s t i [] % 256, sendCrc d s t i [] / 256]) =
          sendCrc d s t i [] % 256 :: [sendCrc d s t i [] / 256] from by simp]
      rw [parse_body_zero _ _ _ _ _ _ _ _ hz]
      rw [parse_foot2_notopen map (sendHeader d s t i []) []
        (sendCrc d s t i [] % 256) SSP_PARTIAL_PACKET_HEADER_VALID crc0
        (sendCrc d s t i [] / 256) [] hdd hcc]
  | cons b0 rest0 =>
      rw [← hbody2]
      have hne : body ≠ [] := by simp [hbody2]
      have hlen2 : (sendHeader d s t i body).bodySize = ([] : List Nat).length + body.length := by
        simp [sendHeader]
      rw [parse_body_exact map _ _ _ _ body [] _ hne hlen2]
      rw [parse_foot1]
      simp only [List.nil_append]
      rw [parse_foot2_notopen map (sendHeader d s t i body) body
        (sendCrc d s t i body % 256) SSP_PARTIAL_PACKET_HEADER_VALID crc0
        (sendCrc d s t i body / 256) [] hdd hcc]

/-! ## Receive-loop lemmas (resynchronization) -/

theorem recvStream_append (map : List Nat) (rc : RecvCtx) (xs ys : List Nat) :
    recvStream map rc (xs ++ ys) =
      ((recvStream map (recvStream map rc xs).1 ys).1,
       (recvStream map rc xs).2 ++ (recvStream map (recvStream map rc xs).1 ys).2) := by
  induction xs generalizing rc with
  | nil => simp [recvStream]
  | cons b bs ih =>
      simp only [List.cons_append, recvStream, List.append_eq]
      rw [ih]
      simp [List.append_assoc]

/-- When a byte run parses to a single completion at its very end and that
    completion is not a header-checksum failure, the receive loop returns
    exactly that frame (the history buffer only accumulates). -/
theorem recvStream_of_parseUpto (map : List Nat) (bytes : List Nat) :
    ∀ (ctx : ParseCtx) (hist : List Nat) (ctx2 : ParseCtx) (f : RxFrame),
    parseUpto map ctx bytes = (ctx2, some f, []) →
    f.err ≠ SSP_BAD_HEADER_CHECKSUM →
    ∃ hist2, recvStream map ⟨ctx, hist⟩ bytes = (⟨ctx2, hist2⟩, [f]) := by
  induction bytes with
  | nil =>
      intro ctx hist ctx2 f h hne
      simp [parseUpto] at h
  | cons b bs ih =>
      intro ctx hist ctx2 f h hne
      simp only [parseUpto] at h
      cases hp : parse1 map ctx b with
      | mk c1 r =>
          cases r with
          | some g =>
              rw [hp] at h
              simp only [Prod.mk.injEq, Option.some.injEq] at h
              obtain ⟨hc, hg, hbs⟩ := h
              subst hc
              subst hg
              subst hbs
              refine ⟨if hist.length < PARSE_HISTORY_SIZE then hist ++ [b] else hist, ?_⟩
              simp only [recvStream, recvStep, hp]
              have hcond : ¬ (g.err = SSP_BAD_HEADER_CHECKSUM ∧
                  (if hist.length < PARSE_HISTORY_SIZE then hist ++ [b] else hist).length =
                    PARSE_HISTORY_SIZE) := fun hclash => hne hclash.1
              rw [if_neg hcond]
              simp [recvStream]
          | none =>
              rw [hp] at h
              obtain ⟨hist2, hrec⟩ := ih c1
                (if hist.length < PARSE_HISTORY_SIZE then hist ++ [b] else hist) ctx2 f h hne
              refine ⟨hist2, ?_⟩
              simp only [recvStream, recvStep, hp]
              rw [hrec]
              simp

theorem parse1_sig1_hit (map : List Nat) (hdr : SspPacketHeader) (acc : List Nat)
    (foot : Nat) (err : SspErr) (crcS : Nat) :
    parse1 map ⟨PS_SIGNATURE_1, hdr, acc, foot, err, crcS⟩ SIG_1 =
      (⟨PS_SIGNATURE_2, hdr, acc, foot, SSP_PARTIAL_PACKET, crcS⟩, none) := by
  simp [parse1]

theorem parse1_sig1_miss (map : List Nat) (hdr : SspPacketHeader) (acc : List Nat)
    (foot : Nat) (err : SspErr) (crcS : Nat) (b : Nat) (hb : b ≠ SIG_1) :
    parse1 map ⟨PS_SIGNATURE_1, hdr, acc, foot, err, crcS⟩ b =
      (⟨PS_SIGNATURE_1, hdr, [], foot, SSP_BAD_SIGNATURE, crcS⟩, none) := by
  simp [parse1, hb, ParseReset]

theorem parse1_sig2_sig1 (map : List Nat) (hdr : SspPacketHeader) (acc : List Nat)
    (foot : Nat) (err : SspErr) (crcS : Nat) :
    parse1 map ⟨PS_SIGNATURE_2, hdr, acc, foot, err, crcS⟩ SIG_1 =
      (⟨PS_SIGNATURE_2, hdr, acc, foot, err, crcS⟩, none) := by
  simp [parse1, SIG_1, SIG_2]

theorem parse1_sig2_miss (map : List Nat) (hdr : SspPacketHeader) (acc : List Nat)
    (foot : Nat) (err : SspErr) (crcS : Nat) (b : Nat) (hb2 : b ≠ SIG_2) (hb1 : b ≠ SIG_1) :
    parse1 map ⟨PS_SIGNATURE_2, hdr, acc, foot, err, crcS⟩ b =
      (⟨PS_SIGNATURE_1, hdr, [], foot, SSP_BAD_SIGNATURE, crcS⟩, none) := by
  simp [parse1, hb2, hb1, ParseReset]

theorem recvStep_none (map : List Nat) (ctx c1 : ParseCtx) (hist : List Nat) (b : Nat)
    (h : parse1 map ctx b = (c1, none)) :
    recvStep map ⟨ctx, hist⟩ b =
      (⟨c1, if hist.length < PARSE_HISTORY_SIZE then hist ++ [b] else hist⟩, []) := by
  simp [recvStep, h]

theorem recvStream_cons_none (map : List Nat) (rc rc1 : RecvCtx) (b : Nat) (rest : List Nat)
    (h : recvStep map rc b = (rc1, [])) :
    recvStream map rc (b :: rest) = recvStream map rc1 rest := by
  simp [recvStream, h]

/-- Scanning a byte run with no adjacent `SIG_1 SIG_2` pair keeps the parser in
    the two signature states, never completes, and keeps the body accumulator
    empty: no frame is returned and no checksum-resync is triggered. -/
theorem recvStream_noise (map : List Nat) :
    ∀ (noise : List Nat) (ctx : ParseCtx) (hist : List Nat),
    (ctx.parseState = PS_SIGNATURE_1 ∨ ctx.parseState = PS_SIGNATURE_2) →
    ctx.bodyAcc = [] →
    (ctx.parseState = PS_SIGNATURE_2 → noise.getD 0 0 ≠ SIG_2) →
    noBeEf noise →
    ∃ ctx2 hist2,
      recvStream map ⟨ctx, hist⟩ noise = (⟨ctx2, hist2⟩, []) ∧
      (ctx2.parseState = PS_SIGNATURE_1 ∨ ctx2.parseState = PS_SIGNATURE_2) ∧
      ctx2.bodyAcc = [] := by
  intro noise
  induction noise with
  | nil =>
      intro ctx hist hps hacc _ _
      exact ⟨ctx, hist, by simp [recvStream], hps, hacc⟩
  | cons b rest ih =>
      intro ctx hist hps hacc hhead hpair
      have hrest : noBeEf rest := by
        intro j hj h1
        have hjlt : j + 1 < (b :: rest).length := by simp; omega
        have h2 := hpair (j + 1) hjlt (by simpa using h1)
        simpa using h2
      have hnext : b = SIG_1 → rest.getD 0 0 ≠ SIG_2 := by
        intro hb
        have h2 := hpair 0 (by simp) (by simpa using hb)
        simpa using h2
      obtain ⟨ps, hdr, acc, foot, err, crcS⟩ := ctx
      simp only at hacc
      subst hacc
      rcases hps with h1 | h1 <;> simp only at h1 <;> subst h1
      · by_cases hb : b = SIG_1
        · subst hb
          rw [recvStream_cons_none map _ _ _ rest
            (recvStep_none map _ _ hist _ (parse1_sig1_hit map hdr [] foot err crcS))]
          exact ih _ _ (Or.inr rfl) rfl (fun _ => hnext rfl) hrest
        · rw [recvStream_cons_none map _ _ _ rest
            (recvStep_none map _ _ hist _ (parse1_sig1_miss map hdr [] foot err crcS b hb))]
          exact ih _ _ (Or.inl rfl) rfl (by intro hcl; exact absurd hcl (by simp)) hrest
      · have hb2 : b ≠ SIG_2 := by simpa using hhead
        by_cases hb : b = SIG_1
        · subst hb
          rw [recvStream_cons_none map _ _ _ rest
            (recvStep_none map _ _ hist _ (parse1_sig2_sig1 map hdr [] foot err crcS))]
          exact ih _ _ (Or.inr rfl) rfl (fun _ => hnext rfl) hrest
        · rw [recvStream_cons_none map _ _ _ rest
            (recvStep_none map _ _ hist _ (parse1_sig2_miss map hdr [] foot err crcS b hb2 hb))]
          exact ih _ _ (Or.inl rfl) rfl (by intro hcl; exact absurd hcl (by simp)) hrest

/-! ## Claim theorems -/

/-- C2 counterexample: the claim promises `err=SSP_SUCCESS` for every
    destination id, but a frame serialized to destination id 3
    (= `SSP_SOCKET_MAX`) parses to `SSP_BAD_SOCKET_ID`, not `SSP_SUCCESS` —
    the parser validates the destination socket before reporting success. -/
theorem c2_roundtrip_counterexample :
    ReceiveErr [1, 1, 1] (SSPCOM_SendBytes 3 0 0 5 [10, 20]) = SSP_BAD_SOCKET_ID ∧
    SSP_BAD_SOCKET_ID ≠ SSP_SUCCESS ∧
    ([10, 20] : List Nat).length ≤ SSP_MAX_BODY_SIZE := by
  decide

/-- C2 (amended): framing round-trip holds for every source id, transaction
    id and payload `p` with `|p| ≤ SSP_MAX_BODY_SIZE`, provided the
    destination id is in range and bound to a port in the receiver's socket
    map: serializing with `SSPCOM_Send` and parsing the resulting bytes yields
    the same `(src, dst, trans, p)` and `err = SSP_SUCCESS`. -/
theorem c2_roundtrip_amended (map : List Nat) (d s t i : Nat) (body : List Nat)
    (hd : d < SSP_SOCKET_MAX) (hopen : map.getD d 0 ≠ SSP_INVALID_PORT)
    (hs : s < 256) (ht : t < 256) (hti : i < 256)
    (hlen : body.length ≤ SSP_MAX_BODY_SIZE) (hbody : ∀ b ∈ body, b < 256) :
    ∃ f : RxFrame, parseFirstResult map (SSPCOM_SendBytes d s t i body) = some f ∧
      f.err = SSP_SUCCESS ∧ f.hdr.destId = d ∧ f.hdr.srcId = s ∧ f.hdr.type = t ∧
      f.hdr.transId = i ∧ f.body = body := by
  refine ⟨⟨SSP_SUCCESS, sendHeader d s t i body, body, sendCrc d s t i body⟩, ?_, rfl,
    rfl, rfl, rfl, rfl, rfl⟩
  unfold parseFirstResult initParseCtx
  rw [parseUpto_serialize map PS_SIGNATURE_1 _ 0 SSP_SUCCESS 0 d s t i body (Or.inl rfl)
    hd hopen hs ht hti hlen hbody]

theorem c2_roundtrip_witness :
    ∃ f : RxFrame, parseFirstResult [1, 1, 1] (SSPCOM_SendBytes 1 0 0 5 [10, 20]) = some f ∧
      f.err = SSP_SUCCESS ∧ f.hdr.destId = 1 ∧ f.hdr.srcId = 0 ∧ f.hdr.type = 0 ∧
      f.hdr.transId = 5 ∧ f.body = [10, 20] :=
  c2_roundtrip_amended [1, 1, 1] 1 0 0 5 [10, 20] (by decide) (by decide) (by decide)
    (by decide) (by decide) (by decide) (by decide)

/-- C6 counterexample: prefix `[0x00, 0xBE, 0xEF, 0, 0, 0, 0, 0]` contains a
    `0xBE 0xEF` pair that is not followed by a valid header (the second
    conjunct: the byte standing where the header checksum would be — the first
    byte of the valid encoding — does not match), yet feeding prefix plus a
    valid encoding of M through the receive loop yields no frame at all: the
    history re-parse consumes the real packet's signature bytes and M is
    lost, contradicting the claimed `err=SSP_SUCCESS` delivery of M. -/
theorem c6_resync_counterexample :
    (recvStream [1, 1, 1] initRecvCtx
      ([0, SIG_1, SIG_2, 0, 0, 0, 0, 0] ++ SSPCOM_SendBytes 1 0 0 0 [])).2 = [] ∧
    (SSPCOM_SendBytes 1 0 0 0 []).getD 0 0 ≠ Checksum [SIG_1, SIG_2, 0, 0, 0, 0, 0] := by
  decide

/-- C6 (amended): if the junk prefix contains no adjacent `0xBE 0xEF` pair at
    all, the receive loop still yields exactly message M with
    `err = SSP_SUCCESS` (destination bound, fields in byte range). The
    original side condition — allowing `0xBE 0xEF` pairs not followed by a
    valid header — is insufficient, as the counterexample shows. -/
theorem c6_resync_amended (map : List Nat) (noise : List Nat) (d s t i : Nat) (body : List Nat)
    (hnoise : noBeEf noise)
    (hd : d < SSP_SOCKET_MAX) (hopen : map.getD d 0 ≠ SSP_INVALID_PORT)
    (hs : s < 256) (ht : t < 256) (hti : i < 256)
    (hlen : body.length ≤ SSP_MAX_BODY_SIZE) (hbody : ∀ b ∈ body, b < 256) :
    (recvStream map initRecvCtx (noise ++ SSPCOM_SendBytes d s t i body)).2 =
      [⟨SSP_SUCCESS, sendHeader d s t i body, body, sendCrc d s t i body⟩] := by
  rw [recvStream_append]
  obtain ⟨ctx2, hist2, hrec, hps2, hacc2⟩ := recvStream_noise map noise initParseCtx []
    (Or.inl rfl) rfl (by intro h; simp [initParseCtx] at h) hnoise
  have hinit : initRecvCtx = (⟨initParseCtx, []⟩ : RecvCtx) := rfl
  rw [hinit, hrec]
  obtain ⟨ps2, hdr2, acc2, foot2, err2, crc2⟩ := ctx2
  simp only at hacc2 hps2
  subst hacc2
  have hparse := parseUpto_serialize map ps2 hdr2 foot2 err2 crc2 d s t i body hps2
    hd hopen hs ht hti hlen hbody
  obtain ⟨hist3, hrec2⟩ := recvStream_of_parseUpto map (SSPCOM_SendBytes d s t i body)
    ⟨ps2, hdr2, [], foot2, err2, crc2⟩ hist2 _ _ hparse (by simp)
  rw [hrec2]
  simp

theorem c6_resync_witness :
    (recvStream [1, 1, 1] initRecvCtx ([1, 2, SIG_1] ++ SSPCOM_SendBytes 1 0 0 0 [9])).2 =
      [⟨SSP_SUCCESS, sendHeader 1 0 0 0 [9], [9], sendCrc 1 0 0 0 [9]⟩] :=
  c6_resync_amended [1, 1, 1] [1, 2, SIG_1] 1 0 0 0 [9] (by decide) (by decide) (by decide)
    (by decide) (by decide) (by decide) (by decide) (by decide)

/-- C8: a received NAK that correlates with an outstanding entry (matching on
    `entry.srcId = nak.destId`, `entry.destId = nak.srcId`,
    `entry.transId = nak.transId`) resets exactly the first such entry's
    `state` to `SEND_STATE`, leaving its every other field and the rest of the
    queue — membership and order — untouched; with no correlated entry the
    queue is entirely unchanged. The engine state changes only by that queue
    rewrite, emitting nothing and dispatching nothing. -/
theorem c8_nak_effect (portId : Nat) (st : SspState) (f : RxFrame)
    (hsucc : f.err = SSP_SUCCESS) (htype : f.hdr.type = MSG_TYPE_NAK) :
    HandleReceived portId st f =
      ({ st with sendDataListHead :=
          st.sendDataListHead.set portId (NakReceive (getQueue st portId) f.hdr) }, [], []) ∧
    (∀ q : List SendData,
      (∀ e ∈ q, ¬ (e.sspData.hdr.destId = f.hdr.srcId ∧ e.sspData.hdr.srcId = f.hdr.destId ∧
        e.sspData.hdr.transId = f.hdr.transId)) →
      NakReceive q f.hdr = q) ∧
    (∀ (q1 : List SendData) (e : SendData) (q2 : List SendData),
      (∀ e2 ∈ q1, ¬ (e2.sspData.hdr.destId = f.hdr.srcId ∧ e2.sspData.hdr.srcId = f.hdr.destId ∧
        e2.sspData.hdr.transId = f.hdr.transId)) →
      (e.sspData.hdr.destId = f.hdr.srcId ∧ e.sspData.hdr.srcId = f.hdr.destId ∧
        e.sspData.hdr.transId = f.hdr.transId) →
      NakReceive (q1 ++ e :: q2) f.hdr = q1 ++ { e with state := SEND_STATE } :: q2) := by
  refine ⟨?_, ?_, ?_⟩
  · have hne : ¬ f.hdr.type = MSG_TYPE_ACK := by rw [htype]; decide
    unfold HandleReceived
    rw [if_pos hsucc, if_neg hne, if_pos htype]
    rfl
  · intro q hnone
    induction q with
    | nil => rfl
    | cons e rest ih =>
        have h1 := hnone e (by simp)
        rw [NakReceive, if_neg h1, ih (fun e2 he2 => hnone e2 (by simp [he2]))]
  · intro q1 e q2 hq1 hmatch
    induction q1 with
    | nil =>
        simp only [List.nil_append]
        rw [NakReceive, if_pos hmatch]
    | cons a q1r ih =>
        have h1 := hq1 a (by simp)
        simp only [List.cons_append]
        rw [NakReceive, if_neg h1, ih (fun e2 he2 => hq1 e2 (by simp [he2]))]

theorem c8_nak_effect_witness :
    HandleReceived 1
      { sendTransId := 0, socketToCallbackMap := [none, none, none],
        socketToUserDataMap := [0, 0, 0], socketToPortIdMap := [1, 1, 0],
        sendDataListHead :=
          [[],
           [{ sendTickStamp := 0, sendRetries := 2, state := RECEIVE_STATE,
              sspData := { err := SSP_SUCCESS, type := SSP_SEND,
                           hdr := { destId := 1, srcId := 0, type := MSG_TYPE_DATA,
                                    bodySize := 0, transId := 7, checksum := 0 },
                           body := [], crc := 0 } }],
           []],
        lastReceivedTransId := [(0, 0), (0, 0), (0, 0)], initOnce := true }
      { err := SSP_SUCCESS,
        hdr := { destId := 0, srcId := 1, type := MSG_TYPE_NAK, bodySize := 0,
                 transId := 7, checksum := 0 },
        body := [], crc := 0 } =
      ({ sendTransId := 0, socketToCallbackMap := [none, none, none],
         socketToUserDataMap := [0, 0, 0], socketToPortIdMap := [1, 1, 0],
         sendDataListHead :=
           [[],
            [{ sendTickStamp := 0, sendRetries := 2, state := SEND_STATE,
               sspData := { err := SSP_SUCCESS, type := SSP_SEND,
                            hdr := { destId := 1, srcId := 0, type := MSG_TYPE_DATA,
                                     bodySize := 0, transId := 7, checksum := 0 },
                            body := [], crc := 0 } }],
            []],
         lastReceivedTransId := [(0, 0), (0, 0), (0, 0)], initOnce := true }, [], []) := by
  rw [(c8_nak_effect 1 _ _ rfl rfl).1]
  decide

theorem getD_set_cases (l : List (List SendData)) (p q : Nat) (x : List SendData) :
    (l.set p x).getD q [] = x ∨ (l.set p x).getD q [] = l.getD q [] := by
  rw [List.getD_eq_getElem?_getD, List.getD_eq_getElem?_getD, List.getElem?_set]
  by_cases h : p = q
  · subst h
    by_cases h2 : p < l.length
    · simp [h2]
    · right
      simp [h2, List.getElem?_eq_none (show l.length ≤ p by omega)]
  · simp [h]

theorem getD_set_length_le (l : List (List SendData)) (p q : Nat) (x : List SendData)
    (n : Nat) (hx : x.length ≤ n) (hq : (l.getD q []).length ≤ n) :
    ((l.set p x).getD q []).length ≤ n := by
  rcases getD_set_cases l p q x with h | h <;> rw [h]
  · exact hx
  · exact hq

/-- C7: with the wrapped total payload size within bounds and the source
    socket bound to port `p`, a send on a port whose queue already holds
    `SSP_MAX_MESSAGES` (or more) entries returns `SSP_QUEUE_FULL` and leaves
    the whole state — in particular every send queue — unchanged; and no
    `SSP_SendMultiple` call ever pushes a queue beyond `SSP_MAX_MESSAGES`. -/
theorem c7_queue_capacity (st : SspState) (src dst : Nat) (dataArray : List (List Nat))
    (dataSizeArray : List Nat) (p : Nat)
    (hsize : dataSizeArray.foldl (fun s x => (s + x) % 2 ^ 16) 0 ≤ SSP_MAX_BODY_SIZE)
    (hport : SSPCOM_GetPortId st src = some p)
    (hfull : SSP_MAX_MESSAGES ≤ (getQueue st p).length) :
    SSP_SendMultiple st src dst dataArray dataSizeArray = (SSP_QUEUE_FULL, st) ∧
    (∀ (st2 : SspState) (src2 dst2 : Nat) (da2 : List (List Nat)) (ds2 : List Nat) (q : Nat),
      (getQueue st2 q).length ≤ SSP_MAX_MESSAGES →
      (getQueue (SSP_SendMultiple st2 src2 dst2 da2 ds2).2 q).length ≤ SSP_MAX_MESSAGES) := by
  constructor
  · unfold SSP_SendMultiple
    rw [if_neg (by omega), hport]
    simp only [if_pos hfull]
  · intro st2 src2 dst2 da2 ds2 q hq
    unfold SSP_SendMultiple
    by_cases h1 : SSP_MAX_BODY_SIZE < ds2.foldl (fun s x => (s + x) % 2 ^ 16) 0
    · rw [if_pos h1]
      exact hq
    · rw [if_neg h1]
      cases hp : SSPCOM_GetPortId st2 src2 with
      | none => exact hq
      | some p2 =>
          simp only
          by_cases h2 : SSP_MAX_MESSAGES ≤ (getQueue st2 p2).length
          · rw [if_pos h2]
            exact hq
          · rw [if_neg h2]
            split <;> split <;>
              first
                | exact hq
                | (simp only [getQueue, setQueue]
                   apply getD_set_length_le
                   · simp only [ListInsert, List.length_append, List.length_singleton]
                     simp only [getQueue] at h2
                     omega
                   · exact hq)

theorem c7_queue_capacity_witness :
    SSP_SendMultiple
      { sendTransId := 0, socketToCallbackMap := [none, none, none],
        socketToUserDataMap := [0, 0, 0], socketToPortIdMap := [1, 1, 0],
        sendDataListHead :=
          [[],
           List.replicate 5
             { sendTickStamp := 0, sendRetries := 0, state := SEND_STATE,
               sspData := { err := SSP_SUCCESS, type := SSP_SEND,
                            hdr := { destId := 1, srcId := 0, type := MSG_TYPE_DATA,
                                     bodySize := 0, transId := 0, checksum := 0 },
                            body := [], crc := 0 } },
           []],
        lastReceivedTransId := [(0, 0), (0, 0), (0, 0)], initOnce := true }
      0 1 [[9]] [1] =
      (SSP_QUEUE_FULL,
       { sendTransId := 0, socketToCallbackMap := [none, none, none],
         socketToUserDataMap := [0, 0, 0], socketToPortIdMap := [1, 1, 0],
         sendDataListHead :=
           [[],
            List.replicate 5
              { sendTickStamp := 0, sendRetries := 0, state := SEND_STATE,
                sspData := { err := SSP_SUCCESS, type := SSP_SEND,
                             hdr := { destId := 1, srcId := 0, type := MSG_TYPE_DATA,
                                      bodySize := 0, transId := 0, checksum := 0 },
                             body := [], crc := 0 } },
            []],
         lastReceivedTransId := [(0, 0), (0, 0), (0, 0)], initOnce := true }) :=
  (c7_queue_capacity _ 0 1 [[9]] [1] 1 (by decide) (by decide) (by decide)).1

/-- C9 counterexample: on an initialized state with no bindings, open socket 0
    on port 1 and install a listener (succeeds); close the socket and rebind
    it with open_socket; a new `SSP_Listen` then still returns
    `SSP_DUPLICATE_LISTENER` — the callback registration survives the
    rebinding because `SSPCOM_CloseSocket` clears only the socket-to-port
    map and nothing ever clears `socketToCallbackMap`. -/
theorem c9_listener_counterexample :
    (SSP_Listen
      ((SSPCOM_OpenSocket
        ((SSPCOM_CloseSocket
          ((SSP_Listen
            ((SSPCOM_OpenSocket
              { sendTransId := 0, socketToCallbackMap := [none, none, none],
                socketToUserDataMap := [0, 0, 0], socketToPortIdMap := [0, 0, 0],
                sendDataListHead := [[], [], []],
                lastReceivedTransId := [(0, 0), (0, 0), (0, 0)], initOnce := true }
              1 0).2)
            0 (some 7) 0).2)
          0).2)
        1 0).2)
      0 (some 8) 1).1 = SSP_DUPLICATE_LISTENER ∧
    (SSP_Listen
      ((SSPCOM_OpenSocket
        { sendTransId := 0, socketToCallbackMap := [none, none, none],
          socketToUserDataMap := [0, 0, 0], socketToPortIdMap := [0, 0, 0],
          sendDataListHead := [[], [], []],
          lastReceivedTransId := [(0, 0), (0, 0), (0, 0)], initOnce := true }
        1 0).2)
      0 (some 7) 0).1 = SSP_SUCCESS ∧
    SSP_DUPLICATE_LISTENER ≠ SSP_SUCCESS := by
  decide

/-- C9 (amended): the first `SSP_Listen` with a non-null callback on an open
    socket whose callback slot is empty installs callback and user data and
    returns `SSP_SUCCESS`; once the slot is occupied every further
    `SSP_Listen` on the socket returns `SSP_DUPLICATE_LISTENER` and leaves the
    state unchanged — and this persists across `close_socket`/`open_socket`,
    which never touch the callback registration. -/
theorem c9_listener_amended (st : SspState) (socketId : Nat) (cb : Option Nat) (ud : Nat)
    (hinit : st.initOnce = true) (hcb : cb ≠ none)
    (hopen : SSPCOM_IsSocketOpen st socketId = true) :
    (st.socketToCallbackMap.getD socketId none = none →
      SSP_Listen st socketId cb ud =
        (SSP_SUCCESS,
         { st with socketToCallbackMap := st.socketToCallbackMap.set socketId cb
                   socketToUserDataMap := st.socketToUserDataMap.set socketId ud })) ∧
    (st.socketToCallbackMap.getD socketId none ≠ none →
      SSP_Listen st socketId cb ud = (SSP_DUPLICATE_LISTENER, st)) ∧
    (∀ p sid2 : Nat,
      ((SSPCOM_CloseSocket st sid2).2).socketToCallbackMap = st.socketToCallbackMap ∧
      ((SSPCOM_OpenSocket st p sid2).2).socketToCallbackMap = st.socketToCallbackMap) := by
  refine ⟨?_, ?_, ?_⟩
  · intro hempty
    unfold SSP_Listen
    rw [if_neg (by simp [hinit]), if_neg (by simpa using hcb), if_neg (by simp [hopen]),
      if_pos hempty]
  · intro hfull
    unfold SSP_Listen
    rw [if_neg (by simp [hinit]), if_neg (by simpa using hcb), if_neg (by simp [hopen]),
      if_neg hfull]
  · intro p sid2
    constructor
    · unfold SSPCOM_CloseSocket
      split <;> rfl
    · unfold SSPCOM_OpenSocket
      split
      · rfl
      · split
        · rfl
        · split <;> rfl

theorem c9_listener_witness :
    SSP_Listen
      { sendTransId := 0, socketToCallbackMap := [none, none, none],
        socketToUserDataMap := [0, 0, 0], socketToPortIdMap := [1, 0, 0],
        sendDataListHead := [[], [], []],
        lastReceivedTransId := [(0, 0), (0, 0), (0, 0)], initOnce := true }
      0 (some 7) 4 =
      (SSP_SUCCESS,
       { sendTransId := 0, socketToCallbackMap := [some 7, none, none],
         socketToUserDataMap := [4, 0, 0], socketToPortIdMap := [1, 0, 0],
         sendDataListHead := [[], [], []],
         lastReceivedTransId := [(0, 0), (0, 0), (0, 0)], initOnce := true }) := by
  rw [(c9_listener_amended
    { sendTransId := 0, socketToCallbackMap := [none, none, none],
      socketToUserDataMap := [0, 0, 0], socketToPortIdMap := [1, 0, 0],
      sendDataListHead := [[], [], []],
      lastReceivedTransId := [(0, 0), (0, 0), (0, 0)], initOnce := true }
    0 (some 7) 4 rfl (by decide) (by decide)).1 rfl]
  decide

/-- C10: `SSP_SendMultiple` sums `dataSizeArray` in a `UINT16`: sizes
    `[1, 65535, 2]` have true total 65538 > 65535 but wrap to 2, which passes
    the `SSP_DATA_SIZE_TOO_LARGE` check; the call returns `SSP_SUCCESS` and
    enqueues a frame whose `bodySize` is the wrapped sum 2. -/
theorem c10_wrapping_sum :
    (SSP_SendMultiple
      { sendTransId := 0, socketToCallbackMap := [none, none, none],
        socketToUserDataMap := [0, 0, 0], socketToPortIdMap := [1, 1, 0],
        sendDataListHead := [[], [], []],
        lastReceivedTransId := [(0, 0), (0, 0), (0, 0)], initOnce := true }
      0 1 [[42], [], []] [1, 65535, 2]).1 = SSP_SUCCESS ∧
    ((getQueue (SSP_SendMultiple
      { sendTransId := 0, socketToCallbackMap := [none, none, none],
        socketToUserDataMap := [0, 0, 0], socketToPortIdMap := [1, 1, 0],
        sendDataListHead := [[], [], []],
        lastReceivedTransId := [(0, 0), (0, 0), (0, 0)], initOnce := true }
      0 1 [[42], [], []] [1, 65535, 2]).2 1).map
        (fun e => e.sspData.hdr.bodySize)) = [2] ∧
    65535 < 1 + 65535 + 2 ∧ (1 + 65535 + 2) % 2 ^ 16 = 2 ∧ 2 ≤ SSP_MAX_BODY_SIZE := by
  decide

/-! ## Retry-budget lemmas (C1) -/

theorem tickElapsed_eq (now stamp : Nat) (h1 : stamp ≤ now) (h2 : now < 2 ^ 32) :
    TickElapsed now stamp = now - stamp := by
  unfold TickElapsed
  omega

theorem getQueue_ne_nil_lt (st : SspState) (p : Nat) (h : getQueue st p ≠ []) :
    p < st.sendDataListHead.length := by
  by_contra hge
  apply h
  unfold getQueue
  rw [List.getD_eq_getElem?_getD, List.getElem?_eq_none (by omega)]
  rfl

theorem getD_set_self (l : List (List SendData)) (p : Nat) (x : List SendData)
    (h : p < l.length) : (l.set p x).getD p [] = x := by
  simp [List.getD_eq_getElem?_getD, List.getElem?_set, h]

theorem getQueue_setQueue_self (st : SspState) (p : Nat) (q : List SendData)
    (h : p < st.sendDataListHead.length) : getQueue (setQueue st p q) p = q := by
  unfold getQueue setQueue
  simp [List.getD_eq_getElem?_getD, List.getElem?_set, h]

theorem setQueue_setQueue (st : SspState) (p : Nat) (q1 q2 : List SendData) :
    setQueue (setQueue st p q1) p q2 = setQueue st p q2 := by
  simp [setQueue, List.set_set]

theorem sweepTimeouts_single (now : Nat) (e : SendData) :
    SweepTimeouts now [e] =
      [if e.state = RECEIVE_STATE ∧ SSP_ACK_TIMEOUT < TickElapsed now e.sendTickStamp then
        { e with state := SEND_STATE } else e] := by
  simp [SweepTimeouts, SSP_MAX_MESSAGES]

theorem processSend_transmit (now p : Nat) (st : SspState) (e : SendData)
    (hq : getQueue st p = [e]) (hstate : e.state = SEND_STATE)
    (hr : e.sendRetries ≤ SSP_MAX_RETRIES) :
    ProcessSend now true p st =
      (setQueue st p
        [{ e with
            sendRetries := e.sendRetries + 1, sendTickStamp := now,
            state := RECEIVE_STATE }], true, []) := by
  unfold ProcessSend
  rw [hq]
  simp only [ListFront, List.head?, if_pos hstate, if_pos hr, if_pos rfl, List.tail_cons]
  rfl

theorem processStep_transmit (now p : Nat) (st : SspState) (e : SendData)
    (hq : getQueue st p = [e])
    (hready : e.state = SEND_STATE ∨
      (e.state = RECEIVE_STATE ∧ SSP_ACK_TIMEOUT < TickElapsed now e.sendTickStamp))
    (hr : e.sendRetries ≤ SSP_MAX_RETRIES) :
    ProcessStep now p st =
      (setQueue st p
        [{ e with
            sendRetries := e.sendRetries + 1, sendTickStamp := now,
            state := RECEIVE_STATE }], true, []) := by
  have hplen : p < st.sendDataListHead.length := getQueue_ne_nil_lt st p (by rw [hq]; simp)
  unfold ProcessStep
  rw [hq, sweepTimeouts_single]
  rcases hready with h | h
  · rw [if_neg (by rw [h]; simp)]
    rw [processSend_transmit now p (setQueue st p [e]) e
      (getQueue_setQueue_self st p [e] hplen) h hr]
    rw [setQueue_setQueue]
  · rw [if_pos h]
    rw [processSend_transmit now p (setQueue st p [{ e with state := SEND_STATE }])
      { e with state := SEND_STATE }
      (getQueue_setQueue_self st p [{ e with state := SEND_STATE }] hplen) rfl hr]
    rw [setQueue_setQueue]

theorem processStep_fail (now p : Nat) (st : SspState) (e : SendData) (c : Nat)
    (hq : getQueue st p = [e])
    (hready : e.state = SEND_STATE ∨
      (e.state = RECEIVE_STATE ∧ SSP_ACK_TIMEOUT < TickElapsed now e.sendTickStamp))
    (hr : ¬ e.sendRetries ≤ SSP_MAX_RETRIES)
    (htype : e.sspData.hdr.type = MSG_TYPE_DATA)
    (hcb : st.socketToCallbackMap.getD e.sspData.hdr.srcId none = some c) :
    ProcessStep now p st =
      (setQueue st p [], false,
       [{ socketId := e.sspData.hdr.srcId, err := SSP_SEND_RETRIES_FAILED,
          dir := e.sspData.type }]) := by
  have hplen : p < st.sendDataListHead.length := getQueue_ne_nil_lt st p (by rw [hq]; simp)
  unfold ProcessStep
  rw [hq, sweepTimeouts_single]
  have main : ∀ e2 : SendData, e2.state = SEND_STATE → e2.sspData = e.sspData →
      e2.sendRetries = e.sendRetries →
      ProcessSend now true p (setQueue st p [e2]) =
        (setQueue st p [], false,
         [{ socketId := e.sspData.hdr.srcId, err := SSP_SEND_RETRIES_FAILED,
            dir := e.sspData.type }]) := by
    intro e2 hst2 hsp2 hret2
    unfold ProcessSend
    rw [getQueue_setQueue_self st p [e2] hplen]
    simp only [ListFront, List.head?, if_pos hst2, hsp2, hret2, if_neg hr]
    have hnot : ¬ ({ e.sspData with err := SSP_SEND_RETRIES_FAILED } : SspData).hdr.type ≠
        MSG_TYPE_DATA := by simpa using htype
    unfold NotifyListener
    rw [if_neg hnot]
    rw [if_pos (show ({ e.sspData with err := SSP_SEND_RETRIES_FAILED } : SspData).err ≠
      SSP_SUCCESS from by simp)]
    unfold CallbackListener
    simp only [setQueue]
    rw [show ({ st with sendDataListHead := st.sendDataListHead.set p [e2]
        } : SspState).socketToCallbackMap = st.socketToCallbackMap from rfl]
    rw [hcb]
    simp only [getQueue]
    rw [getD_set_self st.sendDataListHead p [e2] hplen]
    unfold ListErase
    rw [if_pos ⟨by rw [hsp2], by rw [hsp2], by rw [hsp2], by rw [hsp2], by rw [hsp2],
      by rw [hsp2]⟩]
    simp [List.set_set]
  rcases hready with h | h
  · rw [if_neg (by rw [h]; simp)]
    exact main e h rfl rfl
  · rw [if_pos h]
    exact main { e with state := SEND_STATE } rfl rfl rfl

theorem setQueue_length (st : SspState) (p : Nat) (q : List SendData) :
    (setQueue st p q).sendDataListHead.length = st.sendDataListHead.length := by
  simp [setQueue]

def c1Entry : SendData :=
  { sendTickStamp := 0, sendRetries := 0, state := SEND_STATE,
    sspData := { err := SSP_SUCCESS, type := SSP_SEND,
                 hdr := { destId := 1, srcId := 0, type := MSG_TYPE_DATA,
                          bodySize := 1, transId := 3, checksum := 0 },
                 body := [7], crc := 0 } }

def c1State : SspState :=
  { sendTransId := 0, socketToCallbackMap := [some 1, none, none],
    socketToUserDataMap := [0, 0, 0], socketToPortIdMap := [1, 1, 0],
    sendDataListHead := [[], [c1Entry], []],
    lastReceivedTransId := [(0, 0), (0, 0), (0, 0)], initOnce := true }

/-- C1 counterexample: a queued DATA frame whose peer never answers, pumped
    through six `SSP_Process` calls spaced beyond the ACK timeout, is
    transmitted 5 times — not `SSP_MAX_RETRIES` = 4 as claimed: the budget
    test `sendData->sendRetries++ <= SSP_MAX_RETRIES` post-increments, so the
    values 0..4 all pass. -/
theorem c1_retry_counterexample :
    (ProcessRun 1 [0, 300, 600, 900, 1200, 1500] c1State).2.1 =
      SSP_MAX_RETRIES + 1 ∧
    SSP_MAX_RETRIES + 1 ≠ SSP_MAX_RETRIES := by
  decide

/-- C1 (amended): starting from a send-queue entry whose peer never ACKs,
    repeated `SSP_Process` calls spaced beyond `SSP_ACK_TIMEOUT` transmit the
    entry's frame exactly `SSP_MAX_RETRIES + 1` = 5 times (the C budget test
    post-increments, so retry counts 0..4 all transmit), after which exactly
    one listener callback with `SSP_SEND_RETRIES_FAILED` is delivered to the
    source socket's listener and the entry is erased and freed. -/
theorem c1_retry_budget_amended (p : Nat) (st : SspState) (e : SendData) (c : Nat)
    (t0 t1 t2 t3 t4 t5 : Nat)
    (hq : getQueue st p = [e])
    (hstate : e.state = SEND_STATE) (hr : e.sendRetries = 0)
    (htype : e.sspData.hdr.type = MSG_TYPE_DATA)
    (hcb : st.socketToCallbackMap.getD e.sspData.hdr.srcId none = some c)
    (g1 : t0 + SSP_ACK_TIMEOUT < t1) (g2 : t1 + SSP_ACK_TIMEOUT < t2)
    (g3 : t2 + SSP_ACK_TIMEOUT < t3) (g4 : t3 + SSP_ACK_TIMEOUT < t4)
    (g5 : t4 + SSP_ACK_TIMEOUT < t5) (hbound : t5 < 2 ^ 32) :
    (ProcessRun p [t0, t1, t2, t3, t4, t5] st).2.1 = SSP_MAX_RETRIES + 1 ∧
    (ProcessRun p [t0, t1, t2, t3, t4, t5] st).2.2 =
      [{ socketId := e.sspData.hdr.srcId, err := SSP_SEND_RETRIES_FAILED,
         dir := e.sspData.type }] ∧
    getQueue (ProcessRun p [t0, t1, t2, t3, t4, t5] st).1 p = [] := by
  have hack : SSP_ACK_TIMEOUT = 200 := rfl
  have hmax : SSP_MAX_RETRIES = 4 := rfl
  have hplen : p < st.sendDataListHead.length := getQueue_ne_nil_lt st p (by rw [hq]; simp)
  set E1 : SendData :=
    { e with
      sendRetries := e.sendRetries + 1, sendTickStamp := t0, state := RECEIVE_STATE }
    with hE1
  set S1 : SspState := setQueue st p [E1] with hS1
  set E2 : SendData :=
    { E1 with
      sendRetries := E1.sendRetries + 1, sendTickStamp := t1, state := RECEIVE_STATE }
    with hE2
  set S2 : SspState := setQueue S1 p [E2] with hS2
  set E3 : SendData :=
    { E2 with
      sendRetries := E2.sendRetries + 1, sendTickStamp := t2, state := RECEIVE_STATE }
    with hE3
  set S3 : SspState := setQueue S2 p [E3] with hS3
  set E4 : SendData :=
    { E3 with
      sendRetries := E3.sendRetries + 1, sendTickStamp := t3, state := RECEIVE_STATE }
    with hE4
  set S4 : SspState := setQueue S3 p [E4] with hS4
  set E5 : SendData :=
    { E4 with
      sendRetries := E4.sendRetries + 1, sendTickStamp := t4, state := RECEIVE_STATE }
    with hE5
  set S5 : SspState := setQueue S4 p [E5] with hS5
  have hplen1 : p < S1.sendDataListHead.length := by rw [hS1, setQueue_length]; exact hplen
  have hplen2 : p < S2.sendDataListHead.length := by rw [hS2, setQueue_length]; exact hplen1
  have hplen3 : p < S3.sendDataListHead.length := by rw [hS3, setQueue_length]; exact hplen2
  have hplen4 : p < S4.sendDataListHead.length := by rw [hS4, setQueue_length]; exact hplen3
  have hplen5 : p < S5.sendDataListHead.length := by rw [hS5, setQueue_length]; exact hplen4
  have hq1 : getQueue S1 p = [E1] := by rw [hS1]; exact getQueue_setQueue_self st p [E1] hplen
  have hq2 : getQueue S2 p = [E2] := by rw [hS2]; exact getQueue_setQueue_self S1 p [E2] hplen1
  have hq3 : getQueue S3 p = [E3] := by rw [hS3]; exact getQueue_setQueue_self S2 p [E3] hplen2
  have hq4 : getQueue S4 p = [E4] := by rw [hS4]; exact getQueue_setQueue_self S3 p [E4] hplen3
  have hq5 : getQueue S5 p = [E5] := by rw [hS5]; exact getQueue_setQueue_self S4 p [E5] hplen4
  have s1 := processStep_transmit t0 p st e hq (Or.inl hstate) (by omega)
  rw [← hE1, ← hS1] at s1
  have s2 := processStep_transmit t1 p S1 E1 hq1
    (Or.inr ⟨by rw [hE1], by
      rw [hE1]
      simp only
      rw [tickElapsed_eq t1 t0 (by omega) (by omega)]
      omega⟩)
    (by rw [hE1]; simp only; omega)
  rw [← hE2, ← hS2] at s2
  have s3 := processStep_transmit t2 p S2 E2 hq2
    (Or.inr ⟨by rw [hE2], by
      rw [hE2]
      simp only
      rw [tickElapsed_eq t2 t1 (by omega) (by omega)]
      omega⟩)
    (by rw [hE2, hE1]; simp only; omega)
  rw [← hE3, ← hS3] at s3
  have s4 := processStep_transmit t3 p S3 E3 hq3
    (Or.inr ⟨by rw [hE3], by
      rw [hE3]
      simp only
      rw [tickElapsed_eq t3 t2 (by omega) (by omega)]
      omega⟩)
    (by rw [hE3, hE2, hE1]; simp only; omega)
  rw [← hE4, ← hS4] at s4
  have s5 := processStep_transmit t4 p S4 E4 hq4
    (Or.inr ⟨by rw [hE4], by
      rw [hE4]
      simp only
      rw [tickElapsed_eq t4 t3 (by omega) (by omega)]
      omega⟩)
    (by rw [hE4, hE3, hE2, hE1]; simp only; omega)
  rw [← hE5, ← hS5] at s5
  have hsp5 : E5.sspData = e.sspData := by rw [hE5, hE4, hE3, hE2, hE1]
  have hcb5 : S5.socketToCallbackMap.getD E5.sspData.hdr.srcId none = some c := by
    rw [hsp5, hS5, hS4, hS3, hS2, hS1]
    exact hcb
  have s6 := processStep_fail t5 p S5 E5 c hq5
    (Or.inr ⟨by rw [hE5], by
      rw [hE5]
      simp only
      rw [tickElapsed_eq t5 t4 (by omega) (by omega)]
      omega⟩)
    (by rw [hE5, hE4, hE3, hE2, hE1]; simp only; omega)
    (by rw [hsp5]; exact htype) hcb5
  rw [hsp5] at s6
  have hrun : ProcessRun p [t0, t1, t2, t3, t4, t5] st =
      (setQueue S5 p [], SSP_MAX_RETRIES + 1,
       [{ socketId := e.sspData.hdr.srcId, err := SSP_SEND_RETRIES_FAILED,
          dir := e.sspData.type }]) := by
    simp only [ProcessRun, s1, s2, s3, s4, s5, s6]
    norm_num [hmax]
  rw [hrun]
  refine ⟨rfl, rfl, ?_⟩
  exact getQueue_setQueue_self S5 p [] hplen5

theorem c1_retry_budget_witness :
    (ProcessRun 1 [0, 300, 600, 900, 1200, 1500] c1State).2.2 =
      [{ socketId := 0, err := SSP_SEND_RETRIES_FAILED, dir := SSP_SEND }] :=
  (c1_retry_budget_amended 1 c1State c1Entry 1 0 300 600 900 1200 1500 (by decide)
    (by decide) (by decide) (by decide) (by decide) (by decide) (by decide) (by decide)
    (by decide) (by decide) (by decide)).2.1

def c3State : SspState :=
  { sendTransId := 0, socketToCallbackMap := [some 1, none, none],
    socketToUserDataMap := [0, 0, 0], socketToPortIdMap := [1, 1, 0],
    sendDataListHead := [[], [], []],
    lastReceivedTransId := [(0, 0), (0, 0), (0, 0)], initOnce := true }

def c3Frame : RxFrame :=
  { err := SSP_SUCCESS,
    hdr := { destId := 2, srcId := 0, type := MSG_TYPE_DATA, bodySize := 3,
             transId := 5, checksum := 0 },
    body := [1, 2, 3], crc := 0 }

/-- C3 counterexample: a DATA frame addressed to socket 2, which is not bound
    to any port. The parser's `PS_FOOTER_2` state rejects it with
    `SSP_SOCKET_NOT_OPEN` before the CRC test, so `ProcessReceive` sees a
    non-`SSP_SUCCESS` frame whose error is neither `SSP_CORRUPTED_PACKET` nor
    `SSP_PARTIAL_PACKET_HEADER_VALID` — and emits nothing, not the NAK the
    claim requires for an unbound destination socket. -/
theorem c3_nak_counterexample :
    ((parseFirstResult [1, 1, 0] (SSPCOM_SendBytes 2 0 MSG_TYPE_DATA 5 [1, 2, 3])).map
      (fun f => (f.err, (HandleReceived 1 c3State f).2.1))) =
      some (SSP_SOCKET_NOT_OPEN, ([] : List Emit)) ∧
    SSP_SOCKET_NOT_OPEN ≠ SSP_SUCCESS := by
  decide

/-- C3 (amended): a successfully-parsed DATA frame whose destination socket
    has no registered listener is answered with exactly one NAK back to the
    sender and no listener dispatch. A destination socket that is not bound to
    any port never reaches this path: the parser reports `SSP_SOCKET_NOT_OPEN`
    for the serialized frame, and `ProcessReceive` emits nothing at all for
    such a frame. -/
theorem c3_nak_amended (portId : Nat) (st : SspState) (f : RxFrame) (d s t i : Nat)
    (body : List Nat)
    (herr : f.err = SSP_SUCCESS) (htype : f.hdr.type = MSG_TYPE_DATA)
    (hcb : st.socketToCallbackMap.getD f.hdr.destId none = none)
    (hd : d < SSP_SOCKET_MAX) (hcl : st.socketToPortIdMap.getD d 0 = SSP_INVALID_PORT)
    (hlen : body.length ≤ SSP_MAX_BODY_SIZE) :
    HandleReceived portId st f = (st, [SendNakE f.hdr], []) ∧
    (parseFirstResult st.socketToPortIdMap (SSPCOM_SendBytes d s t i body)).map RxFrame.err =
      some SSP_SOCKET_NOT_OPEN ∧
    ∀ g : RxFrame, g.err = SSP_SOCKET_NOT_OPEN → HandleReceived portId st g = (st, [], []) := by
  refine ⟨?_, ?_, ?_⟩
  · have hna : ¬ f.hdr.type = MSG_TYPE_ACK := by rw [htype]; decide
    have hnn : ¬ f.hdr.type = MSG_TYPE_NAK := by rw [htype]; decide
    rw [HandleReceived, if_pos herr, if_neg hna, if_neg hnn, if_pos htype, if_neg]
    rw [hcb]
    simp
  · rw [parseFirstResult, initParseCtx]
    rw [parseUpto_serialize_notopen st.socketToPortIdMap _ 0 SSP_SUCCESS 0 d s t i body
      hd hcl hlen]
    rfl
  · intro g hg
    have h1 : ¬ g.err = SSP_SUCCESS := by rw [hg]; decide
    have h2 : ¬ ((g.err = SSP_CORRUPTED_PACKET ∨ g.err = SSP_PARTIAL_PACKET_HEADER_VALID) ∧
        g.hdr.type = MSG_TYPE_DATA) := by
      rw [hg]
      rintro ⟨h | h, -⟩ <;> exact absurd h (by decide)
    rw [HandleReceived, if_neg h1, if_neg h2]

theorem c3_nak_witness :
    HandleReceived 1 c3State c3Frame = (c3State, [SendNakE c3Frame.hdr], []) :=
  (c3_nak_amended 1 c3State c3Frame 2 0 MSG_TYPE_DATA 5 [1, 2, 3] (by decide) (by decide)
    (by decide) (by decide) (by decide) (by decide)).1

theorem getD_set_self_pair (l : List (Nat × Nat)) (p : Nat) (x : Nat × Nat)
    (h : p < l.length) : (l.set p x).getD p (0, 0) = x := by
  simp [List.getD_eq_getElem?_getD, List.getElem?_set, h]

theorem notify_recv_new (st : SspState) (sid : Nat) (d : SspData) (p c : Nat)
    (htype : d.hdr.type = MSG_TYPE_DATA) (herr : d.err = SSP_SUCCESS)
    (hdir : d.type = SSP_RECEIVE)
    (hport : SSPCOM_GetPortId st d.hdr.srcId = some p)
    (hnew : ¬ st.lastReceivedTransId.getD p (0, 0) = (d.hdr.transId, d.crc))
    (hcb : st.socketToCallbackMap.getD sid none = some c) :
    NotifyListener st sid d =
      ({ st with lastReceivedTransId := st.lastReceivedTransId.set p (d.hdr.transId, d.crc) },
       [{ socketId := sid, err := d.err, dir := d.type }]) := by
  unfold NotifyListener
  rw [if_neg (not_not_intro htype), if_neg (not_not_intro herr), hport]
  simp only [if_neg (show ¬ d.type = SSP_SEND from by rw [hdir]; decide), if_neg hnew]
  unfold CallbackListener
  rw [hcb]

theorem notify_recv_dup (st : SspState) (sid : Nat) (d : SspData) (p : Nat)
    (htype : d.hdr.type = MSG_TYPE_DATA) (herr : d.err = SSP_SUCCESS)
    (hdir : d.type = SSP_RECEIVE)
    (hport : SSPCOM_GetPortId st d.hdr.srcId = some p)
    (hdup : st.lastReceivedTransId.getD p (0, 0) = (d.hdr.transId, d.crc)) :
    NotifyListener st sid d = (st, []) := by
  unfold NotifyListener
  rw [if_neg (not_not_intro htype), if_neg (not_not_intro herr), hport]
  simp only [if_neg (show ¬ d.type = SSP_SEND from by rw [hdir]; decide), if_pos hdup]

theorem handleReceived_data (portId : Nat) (st : SspState) (f : RxFrame) (c : Nat)
    (herr : f.err = SSP_SUCCESS) (htype : f.hdr.type = MSG_TYPE_DATA)
    (hcb : st.socketToCallbackMap.getD f.hdr.destId none = some c) :
    HandleReceived portId st f =
      ((NotifyListener st f.hdr.destId (rxData f)).1, [SendAckE f.hdr],
       (NotifyListener st f.hdr.destId (rxData f)).2) := by
  have hna : ¬ f.hdr.type = MSG_TYPE_ACK := by rw [htype]; decide
  have hnn : ¬ f.hdr.type = MSG_TYPE_NAK := by rw [htype]; decide
  rw [HandleReceived, if_pos herr, if_neg hna, if_neg hnn, if_pos htype,
    if_pos (show (st.socketToCallbackMap.getD f.hdr.destId none).isSome = true from by
      rw [hcb]; rfl)]

def c4State : SspState :=
  { sendTransId := 0, socketToCallbackMap := [some 1, some 1, none],
    socketToUserDataMap := [0, 0, 0], socketToPortIdMap := [1, 1, 0],
    sendDataListHead := [[], [], []],
    lastReceivedTransId := [(0, 0), (0, 0), (0, 0)], initOnce := true }

def c4Frame : RxFrame :=
  { err := SSP_SUCCESS,
    hdr := { destId := 0, srcId := 2, type := MSG_TYPE_DATA, bodySize := 1,
             transId := 5, checksum := 0 },
    body := [9], crc := 77 }

/-- C4 counterexample: a successfully-parsed DATA frame whose destination
    socket 0 has a registered listener, but whose source socket 2 is not bound
    to any port on the receiver. `NotifyListener` keys the duplicate record by
    `SSPCOM_GetPortId(srcId)`; that lookup fails and the message is silently
    ignored, so delivering the frame twice emits an ACK both times yet invokes
    the listener zero times — not exactly once as the claim requires. -/
theorem c4_duplicate_counterexample :
    (HandleReceived 1 c4State c4Frame).2.1 = [SendAckE c4Frame.hdr] ∧
    (HandleReceived 1 (HandleReceived 1 c4State c4Frame).1 c4Frame).2.1 =
      [SendAckE c4Frame.hdr] ∧
    ((HandleReceived 1 c4State c4Frame).2.2 ++
      (HandleReceived 1 (HandleReceived 1 c4State c4Frame).1 c4Frame).2.2).length = 0 ∧
    (0 : Nat) ≠ 1 := by
  decide

/-- C4 (amended): duplicate suppression works as claimed only when the frame's
    source socket is bound to a port on the receiver and the port's
    `lastReceivedTransId` record differs from the frame's `(transId, crc)`
    pair: then the first delivery emits an ACK and invokes the listener once,
    and the second delivery of the same frame emits an ACK (emission precedes
    the duplicate check) but does not invoke the listener again. -/
theorem c4_duplicate_amended (portId : Nat) (st : SspState) (f : RxFrame) (c p : Nat)
    (herr : f.err = SSP_SUCCESS) (htype : f.hdr.type = MSG_TYPE_DATA)
    (hcb : st.socketToCallbackMap.getD f.hdr.destId none = some c)
    (hport : SSPCOM_GetPortId st f.hdr.srcId = some p)
    (hplen : p < st.lastReceivedTransId.length)
    (hnew : ¬ st.lastReceivedTransId.getD p (0, 0) = (f.hdr.transId, f.crc)) :
    (HandleReceived portId st f).2.1 = [SendAckE f.hdr] ∧
    (HandleReceived portId st f).2.2 =
      [{ socketId := f.hdr.destId, err := SSP_SUCCESS, dir := SSP_RECEIVE }] ∧
    (HandleReceived portId (HandleReceived portId st f).1 f).2.1 = [SendAckE f.hdr] ∧
    (HandleReceived portId (HandleReceived portId st f).1 f).2.2 = [] := by
  have h1 := handleReceived_data portId st f c herr htype hcb
  have hn1 := notify_recv_new st f.hdr.destId (rxData f) p c htype herr rfl hport hnew hcb
  rw [hn1] at h1
  have h2 := handleReceived_data portId
    { st with lastReceivedTransId :=
        st.lastReceivedTransId.set p ((rxData f).hdr.transId, (rxData f).crc) }
    f c herr htype hcb
  have hn2 := notify_recv_dup
    { st with lastReceivedTransId :=
        st.lastReceivedTransId.set p ((rxData f).hdr.transId, (rxData f).crc) }
    f.hdr.destId (rxData f) p htype herr rfl hport
    (getD_set_self_pair st.lastReceivedTransId p ((rxData f).hdr.transId, (rxData f).crc)
      hplen)
  rw [hn2] at h2
  have hbig : HandleReceived portId (HandleReceived portId st f).1 f =
      ({ st with lastReceivedTransId :=
          st.lastReceivedTransId.set p ((rxData f).hdr.transId, (rxData f).crc) },
       [SendAckE f.hdr], []) := by
    rw [h1]
    exact h2
  refine ⟨by rw [h1], ?_, by rw [hbig], by rw [hbig]⟩
  rw [h1]
  simp [rxData, herr]

theorem c4_duplicate_witness :
    (HandleReceived 1 c4State
      { err := SSP_SUCCESS,
        hdr := { destId := 0, srcId := 1, type := MSG_TYPE_DATA, bodySize := 1,
                 transId := 5, checksum := 0 },
        body := [9], crc := 77 }).2.2 =
      [{ socketId := 0, err := SSP_SUCCESS, dir := SSP_RECEIVE }] :=
  (c4_duplicate_amended 1 c4State
    { err := SSP_SUCCESS,
      hdr := { destId := 0, srcId := 1, type := MSG_TYPE_DATA, bodySize := 1,
               transId := 5, checksum := 0 },
      body := [9], crc := 77 } 1 1 (by decide) (by decide) (by decide) (by decide)
    (by decide) (by decide)).2.1

theorem SSPCOM_SendBytes_flat (d s t i : Nat) (body : List Nat) :
    SSPCOM_SendBytes d s t i body =
      [SIG_1, SIG_2, d, s, t, body.length, i, (sendHeader d s t i body).checksum] ++
        (body ++ [sendCrc d s t i body % 256, sendCrc d s t i body / 256]) := by
  simp [SSPCOM_SendBytes, sendHeader, sendCrc, headerBytes8, headerFirst7]

theorem parse_badcks_general (map : List Nat) (d2 s2 t2 n2 i2 c2 : Nat) (rest : List Nat)
    (hb : c2 ≠ Checksum [SIG_1, SIG_2, d2, s2, t2, n2, i2]) :
    parseFirstResult map ([SIG_1, SIG_2, d2, s2, t2, n2, i2, c2] ++ rest) =
      some ⟨SSP_BAD_HEADER_CHECKSUM, ⟨d2, s2, t2, n2, i2, c2⟩, [], 0⟩ := by
  rw [parseFirstResult, initParseCtx]
  rw [show [SIG_1, SIG_2, d2, s2, t2, n2, i2, c2] ++ rest =
      SIG_1 :: SIG_2 :: ([d2, s2, t2, n2, i2] ++ (c2 :: rest)) from by simp]
  rw [parse_sig_from1, parse_fields]
  rw [parse_cks_bad map d2 s2 t2 n2 i2 _ [] 0 SSP_PARTIAL_PACKET 0 c2 rest
    (by simpa [headerFirst7] using hb)]

theorem parse_corrupt_general (map : List Nat) (d s t i c lo hi : Nat) (bodyX : List Nat)
    (hd : d < SSP_SOCKET_MAX) (hopen : map.getD d 0 ≠ SSP_INVALID_PORT)
    (hc : c = Checksum [SIG_1, SIG_2, d, s, t, bodyX.length, i])
    (hlen : bodyX.length ≤ SSP_MAX_BODY_SIZE)
    (hmm : (lo + hi * 256) % 65536 ≠
      Crc16CalcBlock (headerBytes8 ⟨d, s, t, bodyX.length, i, c⟩ ++ bodyX) 0xFFFF) :
    parseFirstResult map
        ([SIG_1, SIG_2, d, s, t, bodyX.length, i, c] ++ (bodyX ++ [lo, hi])) =
      some ⟨SSP_CORRUPTED_PACKET, ⟨d, s, t, bodyX.length, i, c⟩, bodyX, 0⟩ := by
  rw [parseFirstResult, initParseCtx]
  rw [show [SIG_1, SIG_2, d, s, t, bodyX.length, i, c] ++ (bodyX ++ [lo, hi]) =
      SIG_1 :: SIG_2 :: ([d, s, t, bodyX.length, i] ++ (c :: (bodyX ++ [lo, hi]))) from by simp]
  rw [parse_sig_from1, parse_fields,
    parse_cks_good map d s t bodyX.length i 0 [] 0 SSP_PARTIAL_PACKET 0 c _
      (by simpa [headerFirst7] using hc) hlen]
  cases hbody2 : bodyX with
  | nil =>
      subst hbody2
      rw [show (([] : List Nat) ++ [lo, hi]) = lo :: [hi] from by simp]
      rw [parse_body_zero map _ [] 0 SSP_PARTIAL_PACKET_HEADER_VALID 0 lo [hi] rfl]
      rw [parse_foot2_mismatch map _ [] lo SSP_PARTIAL_PACKET_HEADER_VALID 0 hi [] hd hopen
        (by simpa using hmm)]
  | cons b0 rest0 =>
      rw [← hbody2]
      have hne : bodyX ≠ [] := by simp [hbody2]
      have hlen2 : (⟨d, s, t, bodyX.length, i, c⟩ : SspPacketHeader).bodySize =
          ([] : List Nat).length + bodyX.length := by simp
      rw [show bodyX ++ [lo, hi] = bodyX ++ (lo :: [hi]) from rfl]
      rw [parse_body_exact map _ 0 SSP_PARTIAL_PACKET_HEADER_VALID 0 bodyX [] _ hne hlen2]
      rw [parse_foot1]
      simp only [List.nil_append]
      rw [parse_foot2_mismatch map _ bodyX lo SSP_PARTIAL_PACKET_HEADER_VALID 0 hi [] hd hopen
        hmm]

theorem flipBit_append8 (a0 a1 a2 a3 a4 a5 a6 a7 : Nat) (mid tail : List Nat) (j k : Nat)
    (hj : j < mid.length) :
    flipBit ([a0, a1, a2, a3, a4, a5, a6, a7] ++ (mid ++ tail)) (8 + j) k =
      [a0, a1, a2, a3, a4, a5, a6, a7] ++ (mid.set j (mid.getD j 0 ^^^ 2 ^ k) ++ tail) := by
  have hgd : (mid ++ tail).getD j 0 = mid.getD j 0 := by
    rw [List.getD_eq_getElem?_getD, List.getD_eq_getElem?_getD, List.getElem?_append_left hj]
  rw [show 8 + j = j + 8 from by omega]
  simp only [flipBit, List.cons_append, List.nil_append, List.getD_cons_succ,
    List.set_cons_succ, hgd, List.set_append, if_pos hj]

theorem flipBit_lo (a0 a1 a2 a3 a4 a5 a6 a7 : Nat) (mid : List Nat) (lo hi k : Nat) :
    flipBit ([a0, a1, a2, a3, a4, a5, a6, a7] ++ (mid ++ [lo, hi])) (8 + mid.length) k =
      [a0, a1, a2, a3, a4, a5, a6, a7] ++ (mid ++ [lo ^^^ 2 ^ k, hi]) := by
  have hgd : (mid ++ [lo, hi]).getD mid.length 0 = lo := by
    rw [List.getD_eq_getElem?_getD, List.getElem?_append_right (Nat.le_refl _)]
    simp
  have hset : ∀ v, (mid ++ [lo, hi]).set mid.length v = mid ++ [v, hi] := by
    intro v
    rw [List.set_append, if_neg (by omega)]
    simp
  rw [show 8 + mid.length = mid.length + 8 from by omega]
  simp only [flipBit, List.cons_append, List.nil_append, List.getD_cons_succ,
    List.set_cons_succ, hgd, hset]

theorem flipBit_hi (a0 a1 a2 a3 a4 a5 a6 a7 : Nat) (mid : List Nat) (lo hi k : Nat) :
    flipBit ([a0, a1, a2, a3, a4, a5, a6, a7] ++ (mid ++ [lo, hi])) (9 + mid.length) k =
      [a0, a1, a2, a3, a4, a5, a6, a7] ++ (mid ++ [lo, hi ^^^ 2 ^ k]) := by
  have hgd : (mid ++ [lo, hi]).getD (mid.length + 1) 0 = hi := by
    rw [List.getD_eq_getElem?_getD, List.getElem?_append_right (by omega)]
    simp
  have hset : ∀ v, (mid ++ [lo, hi]).set (mid.length + 1) v = mid ++ [lo, v] := by
    intro v
    rw [List.set_append, if_neg (by omega)]
    simp [show mid.length + 1 - mid.length = 1 from by omega]
  rw [show 9 + mid.length = (mid.length + 1) + 8 from by omega]
  simp only [flipBit, List.cons_append, List.nil_append, List.getD_cons_succ,
    List.set_cons_succ, hgd, hset]

/-- C5 (amended): restricted to bit flips in bytes 2 and onward of the
    serialized packet — header fields, header checksum, body and CRC footer —
    every single-bit flip is detected: the parser reports
    `SSP_BAD_HEADER_CHECKSUM` (header region) or `SSP_CORRUPTED_PACKET`
    (body/footer region), never `SSP_SUCCESS`. Flips in the two signature
    bytes are exempt: they can expose an embedded byte pattern that parses as
    a different valid packet. -/
theorem c5_crc_amended (map : List Nat) (d s t i : Nat) (body : List Nat) (pos k : Nat)
    (hd : d < SSP_SOCKET_MAX) (hopen : map.getD d 0 ≠ SSP_INVALID_PORT)
    (hs : s < 256) (ht : t < 256) (hi2 : i < 256)
    (hlen : body.length ≤ SSP_MAX_BODY_SIZE) (hbody : ∀ b ∈ body, b < 256)
    (hpos : 2 ≤ pos) (hposlt : pos < (SSPCOM_SendBytes d s t i body).length)
    (hk : k < 8) :
    (parseFirstResult map (flipBit (SSPCOM_SendBytes d s t i body) pos k)).map RxFrame.err =
        some SSP_BAD_HEADER_CHECKSUM ∨
    (parseFirstResult map (flipBit (SSPCOM_SendBytes d s t i body) pos k)).map RxFrame.err =
        some SSP_CORRUPTED_PACKET := by
  have hd256 : d < 256 := by
    have h3 : SSP_SOCKET_MAX = 3 := rfl
    omega
  have hn256 : body.length < 256 := by
    have h54 : SSP_MAX_BODY_SIZE = 54 := rfl
    omega
  have hcks256 : (sendHeader d s t i body).checksum < 256 := sendHeader_checksum_lt d s t i body
  have hcrc : sendCrc d s t i body < 2 ^ 16 := sendCrc_lt d s t i body hd256 hs ht hi2 hlen hbody
  have hcrc65536 : sendCrc d s t i body < 65536 := by
    have h16 : (2:Nat) ^ 16 = 65536 := by norm_num
    omega
  have hlentot : (SSPCOM_SendBytes d s t i body).length = body.length + 10 := by
    rw [SSPCOM_SendBytes_flat]
    simp
  have hcksdef : (sendHeader d s t i body).checksum =
      Checksum [SIG_1, SIG_2, d, s, t, body.length, i] := rfl
  have hckssum : (sendHeader d s t i body).checksum =
      [SIG_1, SIG_2, d, s, t, body.length, i].sum % 256 := by
    rw [hcksdef, Checksum_eq_sum]
  have hfoot : (sendCrc d s t i body % 256 + sendCrc d s t i body / 256 * 256) % 65536 =
      sendCrc d s t i body := by
    omega
  rw [hlentot] at hposlt
  rcases Nat.lt_or_ge pos 8 with h8 | h8
  · interval_cases pos
    · refine Or.inl ?_
      rw [SSPCOM_SendBytes_flat]
      rw [show flipBit ([SIG_1, SIG_2, d, s, t, body.length, i,
            (sendHeader d s t i body).checksum] ++
            (body ++ [sendCrc d s t i body % 256, sendCrc d s t i body / 256])) 2 k =
          [SIG_1, SIG_2, d ^^^ 2 ^ k, s, t, body.length, i,
            (sendHeader d s t i body).checksum] ++
            (body ++ [sendCrc d s t i body % 256, sendCrc d s t i body / 256]) from by
        simp only [flipBit, List.cons_append, List.nil_append, List.getD_cons_succ,
          List.getD_cons_zero, List.set_cons_succ, List.set_cons_zero]]
      rw [parse_badcks_general map (d ^^^ 2 ^ k) s t body.length i _ _ (by
        rw [hckssum, Checksum_eq_sum]
        have hflip := sum_flip_mod256_ne (SIG_1 + SIG_2 + s + t + body.length + i) d k hd256 hk
        simp only [List.sum_cons, List.sum_nil] at *
        omega)]
      rfl
    · refine Or.inl ?_
      rw [SSPCOM_SendBytes_flat]
      rw [show flipBit ([SIG_1, SIG_2, d, s, t, body.length, i,
            (sendHeader d s t i body).checksum] ++
            (body ++ [sendCrc d s t i body % 256, sendCrc d s t i body / 256])) 3 k =
          [SIG_1, SIG_2, d, s ^^^ 2 ^ k, t, body.length, i,
            (sendHeader d s t i body).checksum] ++
            (body ++ [sendCrc d s t i body % 256, sendCrc d s t i body / 256]) from by
        simp only [flipBit, List.cons_append, List.nil_append, List.getD_cons_succ,
          List.getD_cons_zero, List.set_cons_succ, List.set_cons_zero]]
      rw [parse_badcks_general map d (s ^^^ 2 ^ k) t body.length i _ _ (by
        rw [hckssum, Checksum_eq_sum]
        have hflip := sum_flip_mod256_ne (SIG_1 + SIG_2 + d + t + body.length + i) s k hs hk
        simp only [List.sum_cons, List.sum_nil] at *
        omega)]
      rfl
    · refine Or.inl ?_
      rw [SSPCOM_SendBytes_flat]
      rw [show flipBit ([SIG_1, SIG_2, d, s, t, body.length, i,
            (sendHeader d s t i body).checksum] ++
            (body ++ [sendCrc d s t i body % 256, sendCrc d s t i body / 256])) 4 k =
          [SIG_1, SIG_2, d, s, t ^^^ 2 ^ k, body.length, i,
            (sendHeader d s t i body).checksum] ++
            (body ++ [sendCrc d s t i body % 256, sendCrc d s t i body / 256]) from by
        simp only [flipBit, List.cons_append, List.nil_append, List.getD_cons_succ,
          List.getD_cons_zero, List.set_cons_succ, List.set_cons_zero]]
      rw [parse_badcks_general map d s (t ^^^ 2 ^ k) body.length i _ _ (by
        rw [hckssum, Checksum_eq_sum]
        have hflip := sum_flip_mod256_ne (SIG_1 + SIG_2 + d + s + body.length + i) t k ht hk
        simp only [List.sum_cons, List.sum_nil] at *
        omega)]
      rfl
    · refine Or.inl ?_
      rw [SSPCOM_SendBytes_flat]
      rw [show flipBit ([SIG_1, SIG_2, d, s, t, body.length, i,
            (sendHeader d s t i body).checksum] ++
            (body ++ [sendCrc d s t i body % 256, sendCrc d s t i body / 256])) 5 k =
          [SIG_1, SIG_2, d, s, t, body.length ^^^ 2 ^ k, i,
            (sendHeader d s t i body).checksum] ++
            (body ++ [sendCrc d s t i body % 256, sendCrc d s t i body / 256]) from by
        simp only [flipBit, List.cons_append, List.nil_append, List.getD_cons_succ,
          List.getD_cons_zero, List.set_cons_succ, List.set_cons_zero]]
      rw [parse_badcks_general map d s t (body.length ^^^ 2 ^ k) i _ _ (by
        rw [hckssum, Checksum_eq_sum]
        have hflip := sum_flip_mod256_ne (SIG_1 + SIG_2 + d + s + t + i) body.length k hn256 hk
        simp only [List.sum_cons, List.sum_nil] at *
        omega)]
      rfl
    · refine Or.inl ?_
      rw [SSPCOM_SendBytes_flat]
      rw [show flipBit ([SIG_1, SIG_2, d, s, t, body.length, i,
            (sendHeader d s t i body).checksum] ++
            (body ++ [sendCrc d s t i body % 256, sendCrc d s t i body / 256])) 6 k =
          [SIG_1, SIG_2, d, s, t, body.length, i ^^^ 2 ^ k,
            (sendHeader d s t i body).checksum] ++
            (body ++ [sendCrc d s t i body % 256, sendCrc d s t i body / 256]) from by
        simp only [flipBit, List.cons_append, List.nil_append, List.getD_cons_succ,
          List.getD_cons_zero, List.set_cons_succ, List.set_cons_zero]]
      rw [parse_badcks_general map d s t body.length (i ^^^ 2 ^ k) _ _ (by
        rw [hckssum, Checksum_eq_sum]
        have hflip := sum_flip_mod256_ne (SIG_1 + SIG_2 + d + s + t + body.length) i k hi2 hk
        simp only [List.sum_cons, List.sum_nil] at *
        omega)]
      rfl
    · refine Or.inl ?_
      rw [SSPCOM_SendBytes_flat]
      rw [show flipBit ([SIG_1, SIG_2, d, s, t, body.length, i,
            (sendHeader d s t i body).checksum] ++
            (body ++ [sendCrc d s t i body % 256, sendCrc d s t i body / 256])) 7 k =
          [SIG_1, SIG_2, d, s, t, body.length, i,
            (sendHeader d s t i body).checksum ^^^ 2 ^ k] ++
            (body ++ [sendCrc d s t i body % 256, sendCrc d s t i body / 256]) from by
        simp only [flipBit, List.cons_append, List.nil_append, List.getD_cons_succ,
          List.getD_cons_zero, List.set_cons_succ, List.set_cons_zero]]
      rw [parse_badcks_general map d s t body.length i
        ((sendHeader d s t i body).checksum ^^^ 2 ^ k) _ (by
          rw [← hcksdef]
          exact xor_two_pow_ne _ k)]
      rfl
  · have h16 : (2:Nat) ^ 16 = 65536 := by norm_num
    have hbody16 : ∀ x ∈ body, x < 2 ^ 16 :=
      fun x hx => lt_of_lt_of_le (hbody x hx) (by norm_num)
    have hb8eq : headerBytes8 (sendHeader d s t i body) =
        [SIG_1, SIG_2, d, s, t, body.length, i, (sendHeader d s t i body).checksum] := rfl
    have hhb8mem : ∀ x ∈ headerBytes8 (sendHeader d s t i body), x < 2 ^ 16 := by
      rw [hb8eq]
      intro x hx
      simp only [List.mem_cons, List.not_mem_nil, or_false] at hx
      rcases hx with rfl|rfl|rfl|rfl|rfl|rfl|rfl|rfl
      · decide
      · decide
      · exact lt_of_lt_of_le hd256 (by norm_num)
      · exact lt_of_lt_of_le hs (by norm_num)
      · exact lt_of_lt_of_le ht (by norm_num)
      · exact lt_of_lt_of_le hn256 (by norm_num)
      · exact lt_of_lt_of_le hi2 (by norm_num)
      · exact lt_of_lt_of_le hcks256 (by norm_num)
    rcases Nat.lt_or_ge pos (8 + body.length) with hb8r | hf
    · -- body byte
      refine Or.inr ?_
      obtain ⟨j, rfl⟩ : ∃ j, pos = 8 + j := ⟨pos - 8, by omega⟩
      have hj : j < body.length := by omega
      have hgdj : body.getD j 0 = body[j] := by
        rw [List.getD_eq_getElem?_getD, List.getElem?_eq_getElem hj]
        rfl
      have hsplit : ∀ pre : List Nat, pre ++ body =
          (pre ++ body.take j) ++ body.getD j 0 :: body.drop (j + 1) := by
        intro pre
        conv_lhs => rw [← List.take_append_drop j body]
        rw [List.drop_eq_getElem_cons hj, List.append_assoc, ← hgdj]
      have hpre : ∀ x ∈ headerBytes8 (sendHeader d s t i body) ++ body.take j, x < 2 ^ 16 := by
        intro x hx
        rcases List.mem_append.mp hx with h | h
        · exact hhb8mem x h
        · exact hbody16 x (List.take_subset j body h)
      have hsuf : ∀ x ∈ body.drop (j + 1), x < 2 ^ 16 :=
        fun x hx => hbody16 x (List.drop_subset _ body hx)
      have hbj : body.getD j 0 < 2 ^ 16 := by
        rw [hgdj]
        exact hbody16 _ (body.getElem_mem hj)
      have h2k : (2:Nat) ^ k < 2 ^ 16 := Nat.pow_lt_pow_right (by omega) (by omega)
      have hbj2 : body.getD j 0 ^^^ 2 ^ k < 2 ^ 16 := Nat.xor_lt_two_pow hbj h2k
      have hne : body.getD j 0 ≠ body.getD j 0 ^^^ 2 ^ k := (xor_two_pow_ne _ k).symm
      have hcrcne : Crc16CalcBlock (headerBytes8 (sendHeader d s t i body) ++ body) 0xFFFF ≠
          Crc16CalcBlock (headerBytes8 (sendHeader d s t i body) ++
            body.set j (body.getD j 0 ^^^ 2 ^ k)) 0xFFFF := by
        rw [hsplit (headerBytes8 (sendHeader d s t i body))]
        rw [List.set_eq_take_cons_drop _ hj, ← List.append_assoc]
        exact crc_flip_ne (by norm_num) hpre hsuf hbj hbj2 hne
      have hmm2 : (sendCrc d s t i body % 256 + sendCrc d s t i body / 256 * 256) % 65536 ≠
          Crc16CalcBlock (headerBytes8 ⟨d, s, t,
            (body.set j (body.getD j 0 ^^^ 2 ^ k)).length, i,
            (sendHeader d s t i body).checksum⟩ ++
            body.set j (body.getD j 0 ^^^ 2 ^ k)) 0xFFFF := by
        have hfold : headerBytes8 (⟨d, s, t,
            (body.set j (body.getD j 0 ^^^ 2 ^ k)).length, i,
            (sendHeader d s t i body).checksum⟩ : SspPacketHeader) =
            headerBytes8 (sendHeader d s t i body) := by
          simp [headerBytes8, headerFirst7, sendHeader, List.length_set]
        rw [hfold, hfoot]
        exact hcrcne
      rw [SSPCOM_SendBytes_flat,
        flipBit_append8 SIG_1 SIG_2 d s t body.length i
          ((sendHeader d s t i body).checksum) body
          [sendCrc d s t i body % 256, sendCrc d s t i body / 256] j k hj]
      rw [show body.length = (body.set j (body.getD j 0 ^^^ 2 ^ k)).length from
        (List.length_set body j _).symm]
      rw [parse_corrupt_general map d s t i _ _ _ _ hd hopen
        (by rw [List.length_set]; exact hcksdef)
        (by rw [List.length_set]; exact hlen) hmm2]
      rfl
    · -- footer bytes
      refine Or.inr ?_
      have hdisj : pos = 8 + body.length ∨ pos = 9 + body.length := by omega
      have hlo256 : sendCrc d s t i body % 256 < 256 := by omega
      have hhi256 : sendCrc d s t i body / 256 < 256 := by omega
      have h2k : (2:Nat) ^ k < 256 := by
        have := Nat.pow_lt_pow_right (show 1 < 2 from by omega) (show k < 8 from hk)
        norm_num at this
        omega
      rcases hdisj with h | h
      · subst h
        rw [SSPCOM_SendBytes_flat,
          flipBit_lo SIG_1 SIG_2 d s t body.length i
            ((sendHeader d s t i body).checksum) body
            (sendCrc d s t i body % 256) (sendCrc d s t i body / 256) k]
        rw [parse_corrupt_general map d s t i _ _ _ _ hd hopen hcksdef hlen (by
          have hxlt : sendCrc d s t i body % 256 ^^^ 2 ^ k < 256 :=
            Nat.xor_lt_two_pow (show _ < 2 ^ 8 from by omega) (show _ < 2 ^ 8 from by omega)
          have hxne : sendCrc d s t i body % 256 ^^^ 2 ^ k ≠ sendCrc d s t i body % 256 :=
            xor_two_pow_ne _ k
          have hceq : Crc16CalcBlock (headerBytes8
              (⟨d, s, t, body.length, i, (sendHeader d s t i body).checksum⟩ :
                SspPacketHeader) ++ body) 0xFFFF = sendCrc d s t i body := rfl
          rw [hceq]
          omega)]
        rfl
      · subst h
        rw [SSPCOM_SendBytes_flat,
          flipBit_hi SIG_1 SIG_2 d s t body.length i
            ((sendHeader d s t i body).checksum) body
            (sendCrc d s t i body % 256) (sendCrc d s t i body / 256) k]
        rw [parse_corrupt_general map d s t i _ _ _ _ hd hopen hcksdef hlen (by
          have hxlt : sendCrc d s t i body / 256 ^^^ 2 ^ k < 256 :=
            Nat.xor_lt_two_pow (show _ < 2 ^ 8 from by omega) (show _ < 2 ^ 8 from by omega)
          have hxne : sendCrc d s t i body / 256 ^^^ 2 ^ k ≠ sendCrc d s t i body / 256 :=
            xor_two_pow_ne _ k
          have hceq : Crc16CalcBlock (headerBytes8
              (⟨d, s, t, body.length, i, (sendHeader d s t i body).checksum⟩ :
                SspPacketHeader) ++ body) 0xFFFF = sendCrc d s t i body := rfl
          rw [hceq]
          omega)]
        rfl

/-- C5 counterexample: the claim exempts no byte. Flipping bit 0 of byte 0
    (the first signature byte) of a validly serialized packet whose body is
    itself a valid serialization makes the parser skip the damaged outer
    header and lock onto the embedded packet, which parses with
    `SSP_SUCCESS` — the flip is not detected at all. -/
theorem c5_crc_counterexample :
    (parseFirstResult [1, 1, 1]
      (flipBit (SSPCOM_SendBytes 1 1 MSG_TYPE_DATA 0
        (SSPCOM_SendBytes 0 0 MSG_TYPE_DATA 0 [])) 0 0)).map RxFrame.err =
      some SSP_SUCCESS := by
  decide

theorem c5_crc_witness :
    (parseFirstResult [1, 1, 0]
      (flipBit (SSPCOM_SendBytes 1 0 MSG_TYPE_DATA 5 [1, 2]) 9 3)).map RxFrame.err =
        some SSP_BAD_HEADER_CHECKSUM ∨
    (parseFirstResult [1, 1, 0]
      (flipBit (SSPCOM_SendBytes 1 0 MSG_TYPE_DATA 5 [1, 2]) 9 3)).map RxFrame.err =
        some SSP_CORRUPTED_PACKET :=
  c5_crc_amended [1, 1, 0] 1 0 MSG_TYPE_DATA 5 [1, 2] 9 3 (by decide) (by decide)
    (by decide) (by decide) (by decide) (by decide) (by decide) (by decide) (by decide)
    (by decide)
